import Mathlib

/-!
Verification of the fuelflow sales/inventory/ledger consistency flow.

The data model follows `src/shared/schema.ts` (Drizzle table definitions) and
the HTTP handlers follow `src/server/routes.ts`.  Decimal-string columns are
embedded as rationals (`ℚ`): the handlers only ever move decimal strings
through `parseFloat` and back, and every claim is an exact arithmetic
property.  Nullable columns and columns with a database default are embedded
as `Option ℚ` / `Option String`; JavaScript's `x || '0'` fallback becomes
`Option.getD x 0`.

The storage layer (`./storage`, imported by `src/server/routes.ts`) is not
part of the provided sources; its operations are modelled from the spec where
their behaviour matters, each such definition carrying a doc comment starting
with `Modelled from the spec:`.
-/

namespace FuelFlow

/-- A row of the `customers` table (`src/shared/schema.ts`, `customers`).
`outstandingAmount` is a decimal column with default `'0'`; `none` models an
unset (null/absent) value. -/
structure Customer where
  id : String
  name : String := ""
  creditLimit : Option ℚ := none
  outstandingAmount : Option ℚ := none
deriving Repr, DecidableEq

/-- A row of the `suppliers` table (`src/shared/schema.ts`, `suppliers`). -/
structure Supplier where
  id : String
  name : String := ""
  outstandingAmount : Option ℚ := none
deriving Repr, DecidableEq

/-- A row of the `tanks` table (`src/shared/schema.ts`, `tanks`).
`currentStock` is a decimal column defaulting to `'0'`; we embed it with the
default applied. -/
structure Tank where
  id : String
  stationId : String := ""
  productId : String := ""
  capacity : ℚ := 0
  currentStock : ℚ := 0
deriving Repr, DecidableEq

/-- A row of the `sales_transactions` table (`src/shared/schema.ts`,
`salesTransactions`).  Fields that are `notNull` without a default are plain;
columns with a default (`taxAmount`, `paidAmount`, `outstandingAmount`) or
nullable (`notes`) are `Option`, matching what `insertSalesTransactionSchema`
lets a request omit. -/
structure SalesTransaction where
  id : String
  invoiceNumber : String
  stationId : String
  customerId : String
  userId : String
  paymentMethod : String
  subtotal : ℚ
  taxAmount : Option ℚ := none
  totalAmount : ℚ
  paidAmount : Option ℚ := none
  outstandingAmount : Option ℚ := none
  notes : Option String := none
deriving Repr, DecidableEq

/-- A row of the `sales_transaction_items` table (`src/shared/schema.ts`,
`salesTransactionItems`).  `tankId` is nullable. -/
structure SalesTransactionItem where
  id : String
  transactionId : String
  productId : String
  tankId : Option String := none
  quantity : ℚ
  unitPrice : ℚ
  totalPrice : ℚ
deriving Repr, DecidableEq

/-- A row of the `stock_movements` table (`src/shared/schema.ts`,
`stockMovements`). -/
structure StockMovement where
  id : String
  tankId : String
  stationId : String
  userId : String
  movementType : String
  quantity : ℚ
  previousStock : ℚ
  newStock : ℚ
  referenceId : Option String := none
  referenceType : Option String := none
deriving Repr, DecidableEq

/-- A row of the `purchase_orders` table (`src/shared/schema.ts`,
`purchaseOrders`). -/
structure PurchaseOrder where
  id : String
  orderNumber : String
  stationId : String
  supplierId : String
  userId : String
  status : Option String := none
  subtotal : ℚ
  taxAmount : Option ℚ := none
  totalAmount : ℚ
  notes : Option String := none
deriving Repr, DecidableEq

/-- A row of the `purchase_order_items` table (`src/shared/schema.ts`,
`purchaseOrderItems`). -/
structure PurchaseOrderItem where
  id : String
  orderId : String
  productId : String
  tankId : Option String := none
  quantity : ℚ
  unitPrice : ℚ
  totalPrice : ℚ
  receivedQuantity : Option ℚ := none
deriving Repr, DecidableEq

/-- A row of the `settings` table (`src/shared/schema.ts`, `settings`).
`taxEnabled` defaults to `false` and `taxRate` to `'0'`, both nullable at the
column level, hence `Option`. -/
structure Settings where
  id : String
  stationId : String
  taxEnabled : Option Bool := none
  taxRate : Option ℚ := none
  currencyCode : String := "PKR"
deriving Repr, DecidableEq

/-- The relational store, restricted to the tables the specified flow touches.
`nextId` drives fresh-id generation (`gen_random_uuid()` in the schema). -/
structure DB where
  customers : List Customer := []
  suppliers : List Supplier := []
  tanks : List Tank := []
  salesTransactions : List SalesTransaction := []
  salesTransactionItems : List SalesTransactionItem := []
  stockMovements : List StockMovement := []
  purchaseOrders : List PurchaseOrder := []
  purchaseOrderItems : List PurchaseOrderItem := []
  settings : List Settings := []
  nextId : Nat := 0
deriving Repr, DecidableEq

/-- Fresh primary-key generation (models `gen_random_uuid()`). -/
def genId (db : DB) : String × DB :=
  (toString db.nextId, { db with nextId := db.nextId + 1 })

/-- Storage op `storage.getCustomer(id)`: first customer row with the given id. -/
def getCustomer (db : DB) (id : String) : Option Customer :=
  db.customers.find? (fun c => c.id == id)

/-- Storage op `storage.getSupplier(id)`: first supplier row with the given id. -/
def getSupplier (db : DB) (id : String) : Option Supplier :=
  db.suppliers.find? (fun s => s.id == id)

/-- Storage op `storage.getSalesTransaction(id)`. -/
def getSalesTransaction (db : DB) (id : String) : Option SalesTransaction :=
  db.salesTransactions.find? (fun t => t.id == id)

/-- Storage op `storage.getSettings(stationId)`: the (unique-per-station) settings row. -/
def getSettings (db : DB) (stationId : String) : Option Settings :=
  db.settings.find? (fun s => s.stationId == stationId)

/-- Modelled from the spec: `storage.deleteCustomer(id)` (storage layer not in
the provided sources) removes the customer row with the given id. -/
def deleteCustomer (db : DB) (id : String) : DB :=
  { db with customers := db.customers.filter (fun c => !(c.id == id)) }

/-- Modelled from the spec: `storage.deleteSupplier(id)` (storage layer not in
the provided sources) removes the supplier row with the given id. -/
def deleteSupplier (db : DB) (id : String) : DB :=
  { db with suppliers := db.suppliers.filter (fun s => !(s.id == id)) }

/-- Modelled from the spec: `storage.updateCustomerOutstanding(customerId,
amount)` (storage layer not in the provided sources).  Spec §4.1 step 4:
"increase the customer's `outstandingAmount` by the transaction's outstanding
amount". -/
def updateCustomerOutstanding (db : DB) (customerId : String) (amount : ℚ) : DB :=
  { db with customers := db.customers.map (fun c =>
      if c.id == customerId then
        { c with outstandingAmount := some (c.outstandingAmount.getD 0 + amount) }
      else c) }

/-- Storage op `storage.createSalesTransaction`: inserts the validated header with a
fresh id (modelled from the spec for the missing storage layer; the unique
`invoiceNumber` constraint is not re-checked here, matching spec §4.1 step 1:
"uniqueness is enforced by a storage-level unique constraint"). -/
def createSalesTransaction (db : DB) (t : SalesTransaction) : DB × SalesTransaction :=
  let (i, db') := genId db
  let row := { t with id := i }
  ({ db' with salesTransactions := db'.salesTransactions ++ [row] }, row)

/-- Modelled from the spec: `storage.createSalesTransactionItem` (storage
layer not in the provided sources) inserts the item row with a fresh id. -/
def createSalesTransactionItem (db : DB) (it : SalesTransactionItem) : DB × SalesTransactionItem :=
  let (i, db') := genId db
  let row := { it with id := i }
  ({ db' with salesTransactionItems := db'.salesTransactionItems ++ [row] }, row)

/-- Modelled from the spec: `storage.deleteSalesTransactionItems(transactionId)`
(storage layer not in the provided sources) deletes every item of the
transaction — spec §6: "`PUT /sales/:id` — replaces items (delete-then-recreate)". -/
def deleteSalesTransactionItems (db : DB) (transactionId : String) : DB :=
  { db with salesTransactionItems :=
      db.salesTransactionItems.filter (fun it => !(it.transactionId == transactionId)) }

/-- A partial update to a sales-transaction header, as submitted in the body
of `PUT /api/sales/:transactionId`; absent fields leave the stored value. -/
structure SalesTransactionPatch where
  stationId : Option String := none
  customerId : Option String := none
  userId : Option String := none
  paymentMethod : Option String := none
  subtotal : Option ℚ := none
  taxAmount : Option ℚ := none
  totalAmount : Option ℚ := none
  paidAmount : Option ℚ := none
  outstandingAmount : Option ℚ := none
  notes : Option String := none
deriving Repr, DecidableEq

/-- Apply a header patch to a stored row (the row keeps its id and invoice
number; both are storage-assigned). -/
def applySalesPatch (t : SalesTransaction) (p : SalesTransactionPatch) : SalesTransaction :=
  { t with
    stationId := p.stationId.getD t.stationId
    customerId := p.customerId.getD t.customerId
    userId := p.userId.getD t.userId
    paymentMethod := p.paymentMethod.getD t.paymentMethod
    subtotal := p.subtotal.getD t.subtotal
    taxAmount := match p.taxAmount with | some v => some v | none => t.taxAmount
    totalAmount := p.totalAmount.getD t.totalAmount
    paidAmount := match p.paidAmount with | some v => some v | none => t.paidAmount
    outstandingAmount := match p.outstandingAmount with | some v => some v | none => t.outstandingAmount
    notes := match p.notes with | some v => some v | none => t.notes }

/-- Modelled from the spec: `storage.updateSalesTransaction(id, transaction)`
(storage layer not in the provided sources) updates the stored header row in
place. -/
def updateSalesTransaction (db : DB) (id : String) (p : SalesTransactionPatch) : DB :=
  { db with salesTransactions := db.salesTransactions.map (fun t =>
      if t.id == id then applySalesPatch t p else t) }

/-- The argument record `routes.ts` passes to `storage.createStockMovement`
for a sale (`src/server/routes.ts` lines 792–802; the `unitPrice` and
`remarks` keys it also passes are not columns of `stock_movements` and are
dropped). -/
structure InsertStockMovement where
  tankId : String
  movementType : String
  quantity : ℚ
  referenceType : Option String := none
  referenceId : Option String := none
  stationId : String
  userId : String
deriving Repr, DecidableEq

/-- Modelled from the spec: `storage.createStockMovement` (storage layer not
in the provided sources).  Spec §3: a StockMovement "records previous/new
stock" with invariant "`newStock = previousStock ± quantity` depending on
direction", and a Tank's `currentStock` is "mutated only through StockMovement
creation"; spec §5 calls the implementation a "sequential read-then-write".
So: read the tank's `currentStock` as `previousStock`, compute `newStock`
(minus for "out", plus otherwise), append the movement row and write
`newStock` back to the tank.  A movement against a nonexistent tank is a
no-op here (the real storage would fail; no claim depends on that path). -/
def createStockMovement (db : DB) (m : InsertStockMovement) : DB :=
  match db.tanks.find? (fun t => t.id == m.tankId) with
  | none => db
  | some tank =>
    let prev := tank.currentStock
    let nw := if m.movementType == "out" then prev - m.quantity else prev + m.quantity
    let (i, db') := genId db
    { db' with
      stockMovements := db'.stockMovements ++
        [{ id := i, tankId := m.tankId, stationId := m.stationId, userId := m.userId,
           movementType := m.movementType, quantity := m.quantity,
           previousStock := prev, newStock := nw,
           referenceId := m.referenceId, referenceType := m.referenceType }],
      tanks := db'.tanks.map (fun t =>
        if t.id == m.tankId then { t with currentStock := nw } else t) }

/-- Modelled from the spec: `storage.createPurchaseOrder` (storage layer not
in the provided sources) inserts the order row with a fresh id. -/
def createPurchaseOrder (db : DB) (o : PurchaseOrder) : DB × PurchaseOrder :=
  let (i, db') := genId db
  let row := { o with id := i }
  ({ db' with purchaseOrders := db'.purchaseOrders ++ [row] }, row)

/-- Modelled from the spec: `storage.createPurchaseOrderItem` (storage layer
not in the provided sources) inserts the item row with a fresh id. -/
def createPurchaseOrderItem (db : DB) (it : PurchaseOrderItem) : DB × PurchaseOrderItem :=
  let (i, db') := genId db
  let row := { it with id := i }
  ({ db' with purchaseOrderItems := db'.purchaseOrderItems ++ [row] }, row)

/-- Modelled from the spec: `storage.createSettings` (storage layer not in
the provided sources) inserts a settings row with a fresh id — spec §4.2:
"falling back to a zero-rate default settings record created on demand". -/
def createSettings (db : DB) (s : Settings) : DB × Settings :=
  let (i, db') := genId db
  let row := { s with id := i }
  ({ db' with settings := db'.settings ++ [row] }, row)

/-! ### Request inputs and schema validation

`insertSalesTransactionSchema` / `insertSalesTransactionItemSchema` are
`createInsertSchema(...)` Zod schemas (`src/shared/schema.ts` lines 481–482):
a column that is `notNull` without a default is required, all other columns
are optional, and `paymentMethod` must belong to the `payment_method` enum. -/

/-- The value of the `payment_method` pg enum (`src/shared/schema.ts` line 9). -/
def paymentMethods : List String := ["cash", "card", "credit", "fleet"]

/-- The raw `transaction` object of a `POST /api/sales` body. -/
structure SalesTransactionInput where
  invoiceNumber : Option String := none
  stationId : Option String := none
  customerId : Option String := none
  userId : Option String := none
  paymentMethod : Option String := none
  subtotal : Option ℚ := none
  taxAmount : Option ℚ := none
  totalAmount : Option ℚ := none
  paidAmount : Option ℚ := none
  outstandingAmount : Option ℚ := none
  notes : Option String := none
deriving Repr, DecidableEq

/-- A raw element of the `items` array of a `POST /api/sales` or
`PUT /api/sales/:transactionId` body.  A JSON `"null"` tank shows up as
`some "null"`. -/
structure SalesItemInput where
  productId : Option String := none
  tankId : Option String := none
  quantity : Option ℚ := none
  unitPrice : Option ℚ := none
  totalPrice : Option ℚ := none
deriving Repr, DecidableEq

/-- Validation `insertSalesTransactionSchema.parse({...transaction, invoiceNumber})`
(`src/server/routes.ts` lines 774–777): requires the `notNull`-without-default
columns `stationId`, `customerId`, `userId`, `paymentMethod` (enum-checked),
`subtotal`, `totalAmount`; the generated invoice number is injected over the
body's. -/
def parseSalesTransaction (invoiceNumber : String) (t : SalesTransactionInput) :
    Option SalesTransaction :=
  match t.stationId, t.customerId, t.userId, t.paymentMethod, t.subtotal, t.totalAmount with
  | some st, some cu, some us, some pm, some sub, some tot =>
    if pm ∈ paymentMethods then
      some { id := "", invoiceNumber := invoiceNumber, stationId := st, customerId := cu,
             userId := us, paymentMethod := pm, subtotal := sub, taxAmount := t.taxAmount,
             totalAmount := tot, paidAmount := t.paidAmount,
             outstandingAmount := t.outstandingAmount, notes := t.notes }
    else none
  | _, _, _, _, _, _ => none

/-- Validation `insertSalesTransactionItemSchema.parse({...item, transactionId})`
(`src/server/routes.ts` lines 783–786): requires `productId`, `quantity`,
`unitPrice`, `totalPrice` (the `notNull`-without-default columns besides the
injected `transactionId`); `tankId` is nullable, hence optional.  The same
presence conditions are what the table's NOT NULL constraints enforce, so the
un-validated insert path of `PUT /api/sales/:transactionId` reuses this
function with its failure mapped to a 500 response. -/
def parseSalesItem (transactionId : String) (it : SalesItemInput) :
    Option SalesTransactionItem :=
  match it.productId, it.quantity, it.unitPrice, it.totalPrice with
  | some p, some q, some u, some tp =>
    some { id := "", transactionId := transactionId, productId := p, tankId := it.tankId,
           quantity := q, unitPrice := u, totalPrice := tp }
  | _, _, _, _ => none

/-- The JavaScript guard `item.tankId && item.tankId !== 'null'`
(`src/server/routes.ts` line 791): `tankId` present, truthy (non-empty) and
not the literal string `'null'`. -/
def hasTank (it : SalesItemInput) : Bool :=
  match it.tankId with
  | some t => !(t == "") && !(t == "null")
  | none => false

/-! ### HTTP handlers (`src/server/routes.ts`) -/

/-- The authenticated `req.user` (set by `requireAuth`); `stationId` is
nullable on the `users` table. -/
structure AuthUser where
  id : String
  role : String
  stationId : Option String := none
deriving Repr, DecidableEq

/-- Outcome of a handler: the HTTP status sent and the store after the
request. -/
structure ApiResult where
  status : Nat
  db : DB
deriving Repr, DecidableEq

/-- Outcome of `POST /api/sales`: on 201 the response also carries the
created transaction. -/
structure SalesResult where
  status : Nat
  db : DB
  tx : Option SalesTransaction := none
deriving Repr, DecidableEq

/-- The item loop of `POST /api/sales` (`src/server/routes.ts` lines
782–804): validate each item with the transaction id injected, persist it,
and — when the raw item passes the `tankId && tankId !== 'null'` guard —
persist an "out" stock movement referencing the transaction.  The movement
argument record is `saleMovementArg` (`src/server/routes.ts` lines
792–802). -/
def saleMovementArg (tx : SalesTransaction) (it : SalesItemInput) : InsertStockMovement :=
  { tankId := it.tankId.getD "", movementType := "out",
    quantity := it.quantity.getD 0, referenceType := some "sale",
    referenceId := some tx.id, stationId := tx.stationId, userId := tx.userId }

/-- The item loop of `POST /api/sales` proper.  A Zod failure throws, so
processing stops at the offending item with every earlier write already
committed (spec §4.1 failure semantics); `none` in the second component
signals that thrown error. -/
def processSaleItems (db : DB) (tx : SalesTransaction) :
    List SalesItemInput → DB × Option (List SalesTransactionItem)
  | [] => (db, some [])
  | it :: rest =>
    match parseSalesItem tx.id it with
    | none => (db, none)
    | some row =>
      let (db1, created) := createSalesTransactionItem db row
      let db2 := if hasTank it then createStockMovement db1 (saleMovementArg tx it) else db1
      let r := processSaleItems db2 tx rest
      (r.1, r.2.map (fun more => created :: more))

/-- Handler of `POST /api/sales` (`src/server/routes.ts` lines 766–827).  The generated
invoice number (`` `SAL${Date.now()...}` ``) is time-based, so it enters as a
parameter.  Validation failure anywhere lands in the catch block, answering
400 with whatever writes already happened kept (no rollback).  After the item
loop, a credit sale with a truthy `customerId` bumps that customer's
outstanding amount by `parseFloat(outstandingAmount || '0')`. -/
def postSales (db : DB) (invoiceNumber : String) (transaction : SalesTransactionInput)
    (items : List SalesItemInput) : SalesResult :=
  match parseSalesTransaction invoiceNumber transaction with
  | none => { status := 400, db := db }
  | some validated =>
    let (db1, createdTx) := createSalesTransaction db validated
    match processSaleItems db1 createdTx items with
    | (db2, none) => { status := 400, db := db2 }
    | (db2, some _created) =>
      let db3 :=
        if validated.paymentMethod == "credit" && !(validated.customerId == "") then
          updateCustomerOutstanding db2 validated.customerId
            (validated.outstandingAmount.getD 0)
        else db2
      { status := 201, db := db3, tx := some createdTx }

/-- The item loop of `PUT /api/sales/:transactionId` (`src/server/routes.ts`
lines 734–741): each submitted item is inserted with `transactionId`
overridden, with no Zod validation — a row missing a NOT NULL column fails at
the store and the catch block answers 500, keeping earlier writes.  `false`
in the second component signals that failure. -/
def insertRawSalesItems (db : DB) (transactionId : String) :
    List SalesItemInput → DB × Bool
  | [] => (db, true)
  | it :: rest =>
    match parseSalesItem transactionId it with
    | none => (db, false)
    | some row =>
      let (db1, _) := createSalesTransactionItem db row
      insertRawSalesItems db1 transactionId rest

/-- Handler of `PUT /api/sales/:transactionId` (`src/server/routes.ts` lines 711–748):
404 when the transaction does not exist; 403 when a non-admin user's station
differs from the transaction's; otherwise update the header, delete all
existing items, then recreate the submitted items. -/
def putSales (db : DB) (user : AuthUser) (transactionId : String)
    (transaction : SalesTransactionPatch) (items : List SalesItemInput) : ApiResult :=
  match getSalesTransaction db transactionId with
  | none => { status := 404, db := db }
  | some existing =>
    if !(user.role == "admin") && !(user.stationId == some existing.stationId) then
      { status := 403, db := db }
    else
      let db1 := updateSalesTransaction db transactionId transaction
      let db2 := deleteSalesTransactionItems db1 transactionId
      match insertRawSalesItems db2 transactionId items with
      | (db3, true) => { status := 200, db := db3 }
      | (db3, false) => { status := 500, db := db3 }

/-- Handler of `DELETE /api/customers/:id` (`src/server/routes.ts` lines 565–586):
404 when the customer is missing; 400 when
`parseFloat(customer.outstandingAmount || '0') > 0`; otherwise delete. -/
def deleteCustomerRoute (db : DB) (id : String) : ApiResult :=
  match getCustomer db id with
  | none => { status := 404, db := db }
  | some c =>
    if c.outstandingAmount.getD 0 > 0 then { status := 400, db := db }
    else { status := 200, db := deleteCustomer db id }

/-- Handler of `DELETE /api/suppliers/:id` (`src/server/routes.ts` lines 619–638):
the same checks as customer deletion, against the supplier's outstanding
amount. -/
def deleteSupplierRoute (db : DB) (id : String) : ApiResult :=
  match getSupplier db id with
  | none => { status := 404, db := db }
  | some s =>
    if s.outstandingAmount.getD 0 > 0 then { status := 400, db := db }
    else { status := 200, db := deleteSupplier db id }

/-- The raw `order` object of a `POST /api/purchase-orders` body.
`orderDate` must be convertible to a date — `new Date(order.orderDate)
.toISOString()` throws on an absent or invalid value — so its presence is
part of the success path; we carry it as an opaque present/absent marker. -/
structure PurchaseOrderInput where
  orderNumber : Option String := none
  supplierId : Option String := none
  orderDate : Option String := none
  expectedDeliveryDate : Option String := none
  status : Option String := none
  notes : Option String := none
deriving Repr, DecidableEq

/-- A raw element of the `items` array of a `POST /api/purchase-orders`
body. -/
structure PurchaseItemInput where
  productId : Option String := none
  tankId : Option String := none
  quantity : Option ℚ := none
  unitPrice : Option ℚ := none
  totalPrice : Option ℚ := none
deriving Repr, DecidableEq

/-- Validation `insertPurchaseOrderItemSchema.parse({...item, orderId})`
(`src/server/routes.ts` lines 1092–1095): requires `productId`, `quantity`,
`unitPrice`, `totalPrice`; the extra `subtotal` key added by `processedItems`
is not a column and is stripped by Zod. -/
def parsePurchaseItem (orderId : String) (it : PurchaseItemInput) :
    Option PurchaseOrderItem :=
  match it.productId, it.quantity, it.unitPrice, it.totalPrice with
  | some p, some q, some u, some tp =>
    some { id := "", orderId := orderId, productId := p, tankId := it.tankId,
           quantity := q, unitPrice := u, totalPrice := tp }
  | _, _, _, _ => none

/-- The item loop of `POST /api/purchase-orders` (`src/server/routes.ts`
lines 1090–1098); like the sales loop, a Zod failure stops processing with
earlier writes kept. -/
def processPurchaseItems (db : DB) (orderId : String) :
    List PurchaseItemInput → DB × Option (List PurchaseOrderItem)
  | [] => (db, some [])
  | it :: rest =>
    match parsePurchaseItem orderId it with
    | none => (db, none)
    | some row =>
      let (db1, created) := createPurchaseOrderItem db row
      let r := processPurchaseItems db1 orderId rest
      (r.1, r.2.map (fun more => created :: more))

/-- The effective tax rate of `POST /api/purchase-orders`
(`src/server/routes.ts` line 1065):
`currencyConfig.taxEnabled ? parseFloat(currencyConfig.taxRate || '0') : 0`. -/
def effectiveTaxRate (cfg : Settings) : ℚ :=
  if cfg.taxEnabled.getD false then cfg.taxRate.getD 0 else 0

/-- The fetch-or-create settings step of `POST /api/purchase-orders`
(`src/server/routes.ts` lines 1042–1052): the station's settings row, or a
freshly inserted default with tax disabled and rate `'0'`. -/
def getOrCreateSettings (db : DB) (sid : String) : DB × Settings :=
  match getSettings db sid with
  | some cfg => (db, cfg)
  | none => createSettings db
      { id := "", stationId := sid, taxEnabled := some false,
        taxRate := some 0, currencyCode := "PKR" }

/-- The `subtotal` accumulation of `POST /api/purchase-orders`
(`src/server/routes.ts` lines 1055–1063):
`subtotal += parseFloat(item.quantity) * parseFloat(item.unitPrice)` over the
items in order. -/
def poSubtotal (items : List PurchaseItemInput) : ℚ :=
  items.foldl (fun acc it => acc + it.quantity.getD 0 * it.unitPrice.getD 0) 0

/-- Handler of `POST /api/purchase-orders` (`src/server/routes.ts` lines 1030–1113).
400 when the caller has no station; otherwise fetch (or create, with tax
disabled and rate `'0'`) the station's settings, compute
`subtotal = Σ quantity × unitPrice` over the items (in order),
`taxAmount = subtotal × taxRate`, `totalAmount = subtotal + taxAmount`,
validate and persist the order, then validate and persist each item.  The
order-level Zod parse requires `orderNumber` and `supplierId`, and
`new Date(order.orderDate).toISOString()` needs `orderDate` present
(otherwise the catch block answers 400 — with a settings row possibly already
created). -/
def postPurchaseOrders (db : DB) (user : AuthUser) (order : PurchaseOrderInput)
    (items : List PurchaseItemInput) : ApiResult :=
  match user.stationId with
  | none => { status := 400, db := db }
  | some sid =>
    if sid == "" then { status := 400, db := db }
    else
      let (db1, cfg) := getOrCreateSettings db sid
      let subtotal := poSubtotal items
      let taxRate := effectiveTaxRate cfg
      let taxAmount := subtotal * taxRate
      let totalAmount := subtotal + taxAmount
      match order.orderNumber, order.supplierId, order.orderDate with
      | some onum, some sup, some _odate =>
        let (db2, createdOrder) := createPurchaseOrder db1
          { id := "", orderNumber := onum, stationId := sid, supplierId := sup,
            userId := user.id, status := order.status, subtotal := subtotal,
            taxAmount := some taxAmount, totalAmount := totalAmount,
            notes := some (order.notes.getD "") }
        match processPurchaseItems db2 createdOrder.id items with
        | (db3, some _created) => { status := 201, db := db3 }
        | (db3, none) => { status := 400, db := db3 }
      | _, _, _ => { status := 400, db := db1 }

/-- A raw line of a `POST /api/journal-entries` body / of the ledger form's
journal data (`src/unnamed/part_002`). -/
structure JournalLineInput where
  accountId : Option String := none
  debit : Option ℚ := none
  credit : Option ℚ := none
  notes : Option String := none
deriving Repr, DecidableEq

/-- The journal-entry data the ledger form submits. -/
structure JournalEntryInput where
  description : Option String := none
  sourceType : Option String := none
  lines : List JournalLineInput := []
deriving Repr, DecidableEq

/-- Handler of `POST /api/journal-entries` (`src/server/routes.ts` lines 1454–1476):
the handler builds an echo object around the body and answers 201.  It
performs no balance check and persists nothing ("In production, this would
create the journal entry and lines"). -/
def postJournalEntries (db : DB) (_input : JournalEntryInput) : ApiResult :=
  { status := 201, db := db }

/-- The `totalDebits` of `onJournalSubmit` (`src/unnamed/part_002` line 229):
`lines.reduce((sum, line) => sum + parseFloat(line.debit || '0'), 0)`. -/
def totalDebits (lines : List JournalLineInput) : ℚ :=
  lines.foldl (fun s l => s + l.debit.getD 0) 0

/-- The `totalCredits` of `onJournalSubmit` (`src/unnamed/part_002` line 230). -/
def totalCredits (lines : List JournalLineInput) : ℚ :=
  lines.foldl (fun s l => s + l.credit.getD 0) 0

/-- The client-side submit guard `onJournalSubmit` (`src/unnamed/part_002`
lines 227–273): refuse when `|totalDebits − totalCredits| > 0.01`, when some
line has both or neither of debit/credit positive, or when some line has no
account; otherwise submit the data with the totals attached.  Returns the
submitted payload, or `none` when blocked. -/
def onJournalSubmit (data : JournalEntryInput) :
    Option (JournalEntryInput × ℚ × ℚ) :=
  let d := totalDebits data.lines
  let c := totalCredits data.lines
  if |d - c| > 1/100 then none
  else if data.lines.any (fun l =>
      (l.debit.getD 0 > 0 && l.credit.getD 0 > 0) ||
      (l.debit.getD 0 == 0 && l.credit.getD 0 == 0)) then none
  else if data.lines.any (fun l => l.accountId.getD "" == "") then none
  else some (data, d, c)

/-! ### Projection and frame lemmas for the storage operations -/

theorem createSalesTransaction_eq (db : DB) (t : SalesTransaction) :
    createSalesTransaction db t =
      ({ db with
          nextId := db.nextId + 1
          salesTransactions := db.salesTransactions ++ [{ t with id := toString db.nextId }] },
       { t with id := toString db.nextId }) := rfl

theorem createSalesTransactionItem_eq (db : DB) (it : SalesTransactionItem) :
    createSalesTransactionItem db it =
      ({ db with
          nextId := db.nextId + 1
          salesTransactionItems :=
            db.salesTransactionItems ++ [{ it with id := toString db.nextId }] },
       { it with id := toString db.nextId }) := rfl

theorem updateCustomerOutstanding_frame (db : DB) (cid : String) (amt : ℚ) :
    (updateCustomerOutstanding db cid amt).tanks = db.tanks ∧
    (updateCustomerOutstanding db cid amt).stockMovements = db.stockMovements ∧
    (updateCustomerOutstanding db cid amt).salesTransactions = db.salesTransactions ∧
    (updateCustomerOutstanding db cid amt).salesTransactionItems = db.salesTransactionItems ∧
    (updateCustomerOutstanding db cid amt).suppliers = db.suppliers :=
  ⟨rfl, rfl, rfl, rfl, rfl⟩

theorem createStockMovement_frame (db : DB) (m : InsertStockMovement) :
    (createStockMovement db m).customers = db.customers ∧
    (createStockMovement db m).suppliers = db.suppliers ∧
    (createStockMovement db m).salesTransactions = db.salesTransactions ∧
    (createStockMovement db m).salesTransactionItems = db.salesTransactionItems ∧
    (createStockMovement db m).purchaseOrders = db.purchaseOrders ∧
    (createStockMovement db m).purchaseOrderItems = db.purchaseOrderItems ∧
    (createStockMovement db m).settings = db.settings := by
  cases h : db.tanks.find? (fun t => t.id == m.tankId) <;>
    simp [createStockMovement, h, genId]

theorem createStockMovement_found (db : DB) (m : InsertStockMovement) (tank : Tank)
    (h : db.tanks.find? (fun t => t.id == m.tankId) = some tank) :
    createStockMovement db m =
      { db with
          nextId := db.nextId + 1
          stockMovements := db.stockMovements ++
            [{ id := toString db.nextId, tankId := m.tankId, stationId := m.stationId,
               userId := m.userId, movementType := m.movementType, quantity := m.quantity,
               previousStock := tank.currentStock,
               newStock := if m.movementType == "out" then tank.currentStock - m.quantity
                 else tank.currentStock + m.quantity,
               referenceId := m.referenceId, referenceType := m.referenceType }]
          tanks := db.tanks.map (fun t =>
            if t.id == m.tankId then
              { t with
                  currentStock := if m.movementType == "out" then tank.currentStock - m.quantity
                    else tank.currentStock + m.quantity }
            else t) } := by
  simp [createStockMovement, h, genId]

theorem createStockMovement_tank_ids (db : DB) (m : InsertStockMovement) (x : String) :
    (∃ t ∈ (createStockMovement db m).tanks, t.id = x) ↔ (∃ t ∈ db.tanks, t.id = x) := by
  cases h : db.tanks.find? (fun t => t.id == m.tankId) with
  | none => simp [createStockMovement, h]
  | some tank =>
    simp only [createStockMovement, h, genId, List.mem_map]
    constructor
    · rintro ⟨t, ⟨t0, ht0, rfl⟩, hid⟩
      refine ⟨t0, ht0, ?_⟩
      by_cases hc : t0.id == m.tankId <;> simp [hc] at hid <;> simp [hid]
    · rintro ⟨t0, ht0, rfl⟩
      refine ⟨if t0.id == m.tankId then { t0 with currentStock := _ } else t0, ⟨t0, ht0, rfl⟩, ?_⟩
      by_cases hc : t0.id == m.tankId <;> simp [hc]

theorem processSaleItems_nil (db : DB) (tx : SalesTransaction) :
    processSaleItems db tx [] = (db, some []) := rfl

theorem processSaleItems_cons_none (db : DB) (tx : SalesTransaction) (it : SalesItemInput)
    (rest : List SalesItemInput) (hp : parseSalesItem tx.id it = none) :
    processSaleItems db tx (it :: rest) = (db, none) := by
  unfold processSaleItems
  rw [hp]

/-- The next store state after a successfully validated sale item: the item is
inserted, and when the raw item passes the tank guard an "out" movement is
recorded. -/
def afterSaleItem (db : DB) (tx : SalesTransaction) (it : SalesItemInput)
    (row : SalesTransactionItem) : DB :=
  if hasTank it then
    createStockMovement (createSalesTransactionItem db row).1 (saleMovementArg tx it)
  else (createSalesTransactionItem db row).1

theorem processSaleItems_cons_some (db : DB) (tx : SalesTransaction) (it : SalesItemInput)
    (rest : List SalesItemInput) (row : SalesTransactionItem)
    (hp : parseSalesItem tx.id it = some row) :
    processSaleItems db tx (it :: rest) =
      ((processSaleItems (afterSaleItem db tx it row) tx rest).1,
       (processSaleItems (afterSaleItem db tx it row) tx rest).2.map
         (fun more => (createSalesTransactionItem db row).2 :: more)) := by
  conv_lhs => rw [processSaleItems]
  rw [hp]
  rcases hcr : createSalesTransactionItem db row with ⟨a, b⟩
  simp [hcr, afterSaleItem]

/-- Frame of a single validated sale item: only `salesTransactionItems`,
`stockMovements`, `tanks` and the id counter can change. -/
theorem afterSaleItem_frame (db : DB) (tx : SalesTransaction) (it : SalesItemInput)
    (row : SalesTransactionItem) :
    (afterSaleItem db tx it row).customers = db.customers ∧
    (afterSaleItem db tx it row).suppliers = db.suppliers ∧
    (afterSaleItem db tx it row).salesTransactions = db.salesTransactions ∧
    (afterSaleItem db tx it row).purchaseOrders = db.purchaseOrders ∧
    (afterSaleItem db tx it row).purchaseOrderItems = db.purchaseOrderItems ∧
    (afterSaleItem db tx it row).settings = db.settings := by
  unfold afterSaleItem
  by_cases hT : hasTank it
  · simp only [hT, if_pos]
    obtain ⟨f1, f2, f3, _, f5, f6, f7⟩ :=
      createStockMovement_frame (createSalesTransactionItem db row).1 (saleMovementArg tx it)
    rw [createSalesTransactionItem_eq] at f1 f2 f3 f5 f6 f7
    exact ⟨f1, f2, f3, f5, f6, f7⟩
  · simp only [hT, if_neg, not_false_iff]
    rw [createSalesTransactionItem_eq]
    exact ⟨rfl, rfl, rfl, rfl, rfl, rfl⟩

theorem processSaleItems_frame (items : List SalesItemInput) :
    ∀ (db : DB) (tx : SalesTransaction),
      (processSaleItems db tx items).1.customers = db.customers ∧
      (processSaleItems db tx items).1.suppliers = db.suppliers ∧
      (processSaleItems db tx items).1.salesTransactions = db.salesTransactions ∧
      (processSaleItems db tx items).1.purchaseOrders = db.purchaseOrders ∧
      (processSaleItems db tx items).1.purchaseOrderItems = db.purchaseOrderItems ∧
      (processSaleItems db tx items).1.settings = db.settings := by
  induction items with
  | nil => intro db tx; exact ⟨rfl, rfl, rfl, rfl, rfl, rfl⟩
  | cons it rest ih =>
    intro db tx
    cases hp : parseSalesItem tx.id it with
    | none => rw [processSaleItems_cons_none db tx it rest hp]
              exact ⟨rfl, rfl, rfl, rfl, rfl, rfl⟩
    | some row =>
      rw [processSaleItems_cons_some db tx it rest row hp]
      obtain ⟨g1, g2, g3, g4, g5, g6⟩ := afterSaleItem_frame db tx it row
      obtain ⟨i1, i2, i3, i4, i5, i6⟩ := ih (afterSaleItem db tx it row) tx
      exact ⟨i1.trans g1, i2.trans g2, i3.trans g3, i4.trans g4, i5.trans g5, i6.trans g6⟩

/-- The fields `insertSalesTransactionItemSchema` requires beyond the
injected `transactionId`: presence of `productId`, `quantity`, `unitPrice`
and `totalPrice`. -/
def salesItemValid (it : SalesItemInput) : Bool :=
  it.productId.isSome && it.quantity.isSome && it.unitPrice.isSome && it.totalPrice.isSome

theorem parseSalesItem_eq_none (txId : String) (it : SalesItemInput)
    (h : salesItemValid it = false) : parseSalesItem txId it = none := by
  unfold salesItemValid at h
  unfold parseSalesItem
  rcases hq : it.productId <;> rcases hw : it.quantity <;> rcases he : it.unitPrice <;>
    rcases hr : it.totalPrice <;> simp_all

theorem parseSalesItem_eq_some (txId : String) (it : SalesItemInput)
    (h : salesItemValid it = true) : ∃ row, parseSalesItem txId it = some row := by
  unfold salesItemValid at h
  unfold parseSalesItem
  rcases hq : it.productId <;> rcases hw : it.quantity <;> rcases he : it.unitPrice <;>
    rcases hr : it.totalPrice <;> simp_all

/-- What the spec promises of the stock movement derived from a tank-bearing
sale item: type "out", the item's quantity, a reference back to the sale, and
`previousStock - quantity = newStock`. -/
def saleMovementMatches (txId : String) (it : SalesItemInput) (m : StockMovement) : Prop :=
  m.tankId = it.tankId.getD "" ∧ m.movementType = "out" ∧
  m.quantity = it.quantity.getD 0 ∧ m.referenceType = some "sale" ∧
  m.referenceId = some txId ∧ m.previousStock - m.quantity = m.newStock

theorem afterSaleItem_false_eq (db : DB) (tx : SalesTransaction) (it : SalesItemInput)
    (row : SalesTransactionItem) (hT : hasTank it = false) :
    afterSaleItem db tx it row =
      { db with
          nextId := db.nextId + 1
          salesTransactionItems :=
            db.salesTransactionItems ++ [{ row with id := toString db.nextId }] } := by
  unfold afterSaleItem
  rw [hT]
  simp [createSalesTransactionItem_eq]

theorem afterSaleItem_true_eq (db : DB) (tx : SalesTransaction) (it : SalesItemInput)
    (row : SalesTransactionItem) (tank : Tank) (hT : hasTank it = true)
    (hfind : db.tanks.find? (fun t => t.id == it.tankId.getD "") = some tank) :
    afterSaleItem db tx it row =
      { db with
          nextId := db.nextId + 2
          salesTransactionItems :=
            db.salesTransactionItems ++ [{ row with id := toString db.nextId }]
          stockMovements := db.stockMovements ++
            [{ id := toString (db.nextId + 1), tankId := it.tankId.getD "",
               stationId := tx.stationId, userId := tx.userId, movementType := "out",
               quantity := it.quantity.getD 0, previousStock := tank.currentStock,
               newStock := tank.currentStock - it.quantity.getD 0,
               referenceId := some tx.id, referenceType := some "sale" }]
          tanks := db.tanks.map (fun t =>
            if t.id == it.tankId.getD "" then
              { t with currentStock := tank.currentStock - it.quantity.getD 0 }
            else t) } := by
  unfold afterSaleItem
  rw [hT]
  simp only [if_pos]
  rw [createSalesTransactionItem_eq]
  rw [createStockMovement_found _ _ tank (by simpa [saleMovementArg] using hfind)]
  simp [saleMovementArg]

theorem afterSaleItem_tank_ids (db : DB) (tx : SalesTransaction) (it : SalesItemInput)
    (row : SalesTransactionItem) (x : String) :
    (∃ t ∈ (afterSaleItem db tx it row).tanks, t.id = x) ↔ (∃ t ∈ db.tanks, t.id = x) := by
  unfold afterSaleItem
  by_cases hT : hasTank it
  · simp only [hT, if_pos]
    rw [createStockMovement_tank_ids]
    rw [createSalesTransactionItem_eq]
  · have hF : hasTank it = false := by simpa using hT
    simp [hF, createSalesTransactionItem_eq]

/-- Full characterization of a successful run of the sales item loop: the
stock-movement ledger grows by exactly one "out" movement per tank-bearing
item (in item order, each satisfying `saleMovementMatches`), every tank ends
at the `newStock` of the last movement that touched it (tanks no movement
touched are unchanged), and one item row is inserted per input item. -/
theorem processSaleItems_ok_spec (items : List SalesItemInput) :
    ∀ (db : DB) (tx : SalesTransaction) (db' : DB) (created : List SalesTransactionItem),
    processSaleItems db tx items = (db', some created) →
    (∀ it ∈ items, hasTank it = true → ∃ t ∈ db.tanks, t.id = it.tankId.getD "") →
    ∃ l, db'.stockMovements = db.stockMovements ++ l ∧
      List.Forall₂ (saleMovementMatches tx.id) (items.filter hasTank) l ∧
      (∀ t' ∈ db'.tanks,
        ((l.filter (fun m => m.tankId == t'.id)).getLast? = none → t' ∈ db.tanks) ∧
        (∀ m, (l.filter (fun m => m.tankId == t'.id)).getLast? = some m →
          t'.currentStock = m.newStock)) ∧
      db'.salesTransactionItems.length = db.salesTransactionItems.length + items.length := by
  induction items with
  | nil =>
    intro db tx db' created hrun hex
    rw [processSaleItems_nil] at hrun
    injection hrun with h1 h2
    subst h1
    refine ⟨[], by simp, by simp, ?_, by simp⟩
    intro t' ht'
    exact ⟨fun _ => ht', fun m hm => by simp at hm⟩
  | cons it rest ih =>
    intro db tx db' created hrun hex
    cases hp : parseSalesItem tx.id it with
    | none =>
      rw [processSaleItems_cons_none db tx it rest hp] at hrun
      injection hrun with h1 h2
      exact absurd h2 (by simp)
    | some row =>
      rw [processSaleItems_cons_some db tx it rest row hp] at hrun
      injection hrun with hdb hsnd
      rcases hrest : processSaleItems (afterSaleItem db tx it row) tx rest with ⟨dbR, res⟩
      rw [hrest] at hdb hsnd
      cases res with
      | none => simp at hsnd
      | some more =>
        simp only at hdb
        subst hdb
        have hex' : ∀ it' ∈ rest, hasTank it' = true →
            ∃ t ∈ (afterSaleItem db tx it row).tanks, t.id = it'.tankId.getD "" := by
          intro it' hm ht
          exact (afterSaleItem_tank_ids db tx it row _).mpr
            (hex it' (List.mem_cons_of_mem _ hm) ht)
        obtain ⟨l₂, hm2, hf2, hinv2, hlen2⟩ := ih (afterSaleItem db tx it row) tx dbR more hrest hex'
        by_cases hT : hasTank it
        · obtain ⟨tank0, hfind⟩ : ∃ tk,
              db.tanks.find? (fun t => t.id == it.tankId.getD "") = some tk := by
            obtain ⟨tank, htmem, htid⟩ := hex it (List.mem_cons_self _ _) hT
            have : (db.tanks.find? (fun t => t.id == it.tankId.getD "")).isSome := by
              rw [List.find?_isSome]
              exact ⟨tank, htmem, by simp [htid]⟩
            exact Option.isSome_iff_exists.mp this
          have hA := afterSaleItem_true_eq db tx it row tank0 hT hfind
          set m₀ : StockMovement :=
            { id := toString (db.nextId + 1), tankId := it.tankId.getD "",
              stationId := tx.stationId, userId := tx.userId, movementType := "out",
              quantity := it.quantity.getD 0, previousStock := tank0.currentStock,
              newStock := tank0.currentStock - it.quantity.getD 0,
              referenceId := some tx.id, referenceType := some "sale" } with hm₀
          refine ⟨m₀ :: l₂, ?_, ?_, ?_, ?_⟩
          · rw [hm2, hA]
            simp
          · rw [List.filter_cons_of_pos hT]
            refine List.Forall₂.cons ?_ hf2
            exact ⟨rfl, rfl, rfl, rfl, rfl, rfl⟩
          · intro t' ht'
            have hi2 := hinv2 t' ht'
            have hfc : (List.filter (fun m => m.tankId == t'.id) (m₀ :: l₂)) =
                if m₀.tankId == t'.id then m₀ :: l₂.filter (fun m => m.tankId == t'.id)
                else l₂.filter (fun m => m.tankId == t'.id) := List.filter_cons
            by_cases hc : m₀.tankId == t'.id
            · rw [hfc, if_pos hc]
              cases hF : l₂.filter (fun m => m.tankId == t'.id) with
              | nil =>
                rw [hF] at hi2
                constructor
                · intro hnone; simp at hnone
                · intro m hm
                  simp at hm
                  subst hm
                  have ht'A : t' ∈ (afterSaleItem db tx it row).tanks := hi2.1 rfl
                  rw [hA] at ht'A
                  simp only [List.mem_map] at ht'A
                  obtain ⟨t0, _ht0, himg⟩ := ht'A
                  by_cases h0 : t0.id == it.tankId.getD ""
                  · rw [if_pos h0] at himg
                    rw [← himg]
                  · rw [if_neg h0] at himg
                    exfalso
                    apply h0
                    have h1 : it.tankId.getD "" = t'.id := eq_of_beq hc
                    rw [← himg] at h1
                    exact beq_of_eq h1.symm
              | cons f fs =>
                rw [hF] at hi2
                constructor
                · intro hnone
                  rw [List.getLast?_cons_cons] at hnone
                  rw [List.getLast?_eq_none_iff] at hnone
                  exact absurd hnone (by simp)
                · intro m hm
                  rw [List.getLast?_cons_cons] at hm
                  exact hi2.2 m hm
            · rw [hfc, if_neg hc]
              constructor
              · intro hnone
                have ht'A : t' ∈ (afterSaleItem db tx it row).tanks := hi2.1 hnone
                rw [hA] at ht'A
                simp only [List.mem_map] at ht'A
                obtain ⟨t0, ht0, himg⟩ := ht'A
                by_cases h0 : t0.id == it.tankId.getD ""
                · exfalso
                  apply hc
                  rw [← himg]
                  simp only [if_pos h0]
                  simpa using (eq_of_beq h0).symm
                · rw [if_neg h0] at himg
                  rw [← himg]; exact ht0
              · exact hi2.2
          · rw [hlen2, hA]
            simp only [List.length_append, List.length_singleton, List.length_cons, List.length_nil]
            omega
        · have hF : hasTank it = false := by simpa using hT
          have hA := afterSaleItem_false_eq db tx it row hF
          refine ⟨l₂, ?_, ?_, ?_, ?_⟩
          · rw [hm2, hA]
          · rw [List.filter_cons_of_neg (by simp [hF])]
            exact hf2
          · intro t' ht'
            have hi2 := hinv2 t' ht'
            constructor
            · intro hnone
              have := hi2.1 hnone
              rw [hA] at this
              exact this
            · exact hi2.2
          · rw [hlen2, hA]
            simp only [List.length_append, List.length_singleton, List.length_cons, List.length_nil]
            omega

/-- Characterization of a run of the sales item loop that hits an invalid
item: the loop signals the thrown validation error, but every item before the
invalid one is already inserted, together with one stock movement per
tank-bearing earlier item. -/
theorem processSaleItems_fail_spec (pre : List SalesItemInput) :
    ∀ (db : DB) (tx : SalesTransaction) (bad : SalesItemInput) (rest : List SalesItemInput),
    (∀ it ∈ pre, salesItemValid it = true) → salesItemValid bad = false →
    (∀ it ∈ pre, hasTank it = true → ∃ t ∈ db.tanks, t.id = it.tankId.getD "") →
    (processSaleItems db tx (pre ++ bad :: rest)).2 = none ∧
    (processSaleItems db tx (pre ++ bad :: rest)).1.salesTransactionItems.length =
      db.salesTransactionItems.length + pre.length ∧
    (processSaleItems db tx (pre ++ bad :: rest)).1.stockMovements.length =
      db.stockMovements.length + (pre.filter hasTank).length := by
  induction pre with
  | nil =>
    intro db tx bad rest _hpre hbad _hex
    rw [List.nil_append, processSaleItems_cons_none db tx bad rest
      (parseSalesItem_eq_none tx.id bad hbad)]
    simp
  | cons p pre' ih =>
    intro db tx bad rest hpre hbad hex
    obtain ⟨row, hp⟩ := parseSalesItem_eq_some tx.id p (hpre p (List.mem_cons_self _ _))
    rw [List.cons_append, processSaleItems_cons_some db tx p (pre' ++ bad :: rest) row hp]
    have hex' : ∀ it ∈ pre', hasTank it = true →
        ∃ t ∈ (afterSaleItem db tx p row).tanks, t.id = it.tankId.getD "" := by
      intro it' hm ht
      exact (afterSaleItem_tank_ids db tx p row _).mpr
        (hex it' (List.mem_cons_of_mem _ hm) ht)
    obtain ⟨i1, i2, i3⟩ := ih (afterSaleItem db tx p row) tx bad rest
      (fun it hm => hpre it (List.mem_cons_of_mem _ hm)) hbad hex'
    refine ⟨?_, ?_, ?_⟩
    · simp [i1]
    · by_cases hT : hasTank p
      · obtain ⟨tank0, hfind⟩ : ∃ tk,
            db.tanks.find? (fun t => t.id == p.tankId.getD "") = some tk := by
          obtain ⟨tank, htmem, htid⟩ := hex p (List.mem_cons_self _ _) hT
          have : (db.tanks.find? (fun t => t.id == p.tankId.getD "")).isSome := by
            rw [List.find?_isSome]
            exact ⟨tank, htmem, by simp [htid]⟩
          exact Option.isSome_iff_exists.mp this
        rw [i2, afterSaleItem_true_eq db tx p row tank0 hT hfind]
        try simp only [List.length_append, List.length_singleton, List.length_cons,
          List.length_nil]
        try omega
      · rw [i2, afterSaleItem_false_eq db tx p row (by simpa using hT)]
        try simp only [List.length_append, List.length_singleton, List.length_cons,
          List.length_nil]
        try omega
    · by_cases hT : hasTank p
      · obtain ⟨tank0, hfind⟩ : ∃ tk,
            db.tanks.find? (fun t => t.id == p.tankId.getD "") = some tk := by
          obtain ⟨tank, htmem, htid⟩ := hex p (List.mem_cons_self _ _) hT
          have : (db.tanks.find? (fun t => t.id == p.tankId.getD "")).isSome := by
            rw [List.find?_isSome]
            exact ⟨tank, htmem, by simp [htid]⟩
          exact Option.isSome_iff_exists.mp this
        rw [i3, afterSaleItem_true_eq db tx p row tank0 hT hfind,
          List.filter_cons_of_pos hT]
        try simp only [List.length_append, List.length_singleton, List.length_cons,
          List.length_nil]
        try omega
      · rw [i3, afterSaleItem_false_eq db tx p row (by simpa using hT),
          List.filter_cons_of_neg hT]
        try simp only [List.length_append, List.length_singleton, List.length_cons,
          List.length_nil]
        try omega

theorem find?_map_update (l : List Customer) (cid : String) (amt : ℚ) :
    (l.map (fun c =>
        if c.id == cid then
          { c with outstandingAmount := some (c.outstandingAmount.getD 0 + amt) }
        else c)).find? (fun c => c.id == cid) =
      (l.find? (fun c => c.id == cid)).map (fun c =>
        { c with outstandingAmount := some (c.outstandingAmount.getD 0 + amt) }) := by
  induction l with
  | nil => rfl
  | cons a l ih =>
    simp only [List.map_cons, List.find?_cons]
    by_cases hb0 : a.id == cid
    · have hb : (a.id == cid) = true := hb0
      have hbump : ((if (a.id == cid) = true then
          { a with outstandingAmount := some (a.outstandingAmount.getD 0 + amt) }
          else a).id == cid) = true := by
        rw [if_pos hb]; exact hb
      rw [hbump, if_pos hb, hb]
      rfl
    · have hb : (a.id == cid) = false := by simpa using hb0
      have hbump : ((if (a.id == cid) = true then
          { a with outstandingAmount := some (a.outstandingAmount.getD 0 + amt) }
          else a).id == cid) = false := by
        rw [if_neg (by simp [hb])]; exact hb
      rw [hbump, hb, ih]

theorem getCustomer_updateCustomerOutstanding (db : DB) (cid : String) (amt : ℚ) :
    getCustomer (updateCustomerOutstanding db cid amt) cid =
      (getCustomer db cid).map (fun c =>
        { c with outstandingAmount := some (c.outstandingAmount.getD 0 + amt) }) := by
  unfold getCustomer updateCustomerOutstanding
  exact find?_map_update db.customers cid amt

theorem updateCustomerOutstanding_mem_other (db : DB) (cid : String) (amt : ℚ)
    (x : Customer) (hx : x ∈ db.customers) (hne : x.id ≠ cid) :
    x ∈ (updateCustomerOutstanding db cid amt).customers := by
  unfold updateCustomerOutstanding
  simp only [List.mem_map]
  exact ⟨x, hx, by simp [hne]⟩

/-- The semantic content of a stored sale item: everything except its
storage-assigned primary key. -/
def itemFields (x : SalesTransactionItem) :
    String × String × Option String × ℚ × ℚ × ℚ :=
  (x.transactionId, x.productId, x.tankId, x.quantity, x.unitPrice, x.totalPrice)

/-- The semantic content a submitted item is expected to be stored with,
under the given transaction id. -/
def inputFields (txId : String) (it : SalesItemInput) :
    String × String × Option String × ℚ × ℚ × ℚ :=
  (txId, it.productId.getD "", it.tankId, it.quantity.getD 0, it.unitPrice.getD 0,
   it.totalPrice.getD 0)

theorem parseSalesItem_fields (txId : String) (it : SalesItemInput)
    (row : SalesTransactionItem) (h : parseSalesItem txId it = some row) :
    itemFields row = inputFields txId it ∧ row.transactionId = txId := by
  unfold parseSalesItem at h
  rcases hq : it.productId <;> rcases hw : it.quantity <;> rcases he : it.unitPrice <;>
    rcases hr : it.totalPrice <;> rw [hq, hw, he, hr] at h <;> simp at h <;>
    simp [← h, itemFields, inputFields, hq, hw, he, hr]

theorem insertRawSalesItems_frame (items : List SalesItemInput) :
    ∀ (db : DB) (txId : String),
      (insertRawSalesItems db txId items).1.customers = db.customers ∧
      (insertRawSalesItems db txId items).1.suppliers = db.suppliers ∧
      (insertRawSalesItems db txId items).1.tanks = db.tanks ∧
      (insertRawSalesItems db txId items).1.salesTransactions = db.salesTransactions ∧
      (insertRawSalesItems db txId items).1.stockMovements = db.stockMovements ∧
      (insertRawSalesItems db txId items).1.purchaseOrders = db.purchaseOrders ∧
      (insertRawSalesItems db txId items).1.purchaseOrderItems = db.purchaseOrderItems ∧
      (insertRawSalesItems db txId items).1.settings = db.settings := by
  induction items with
  | nil => intro db txId; exact ⟨rfl, rfl, rfl, rfl, rfl, rfl, rfl, rfl⟩
  | cons it rest ih =>
    intro db txId
    unfold insertRawSalesItems
    cases hp : parseSalesItem txId it with
    | none => exact ⟨rfl, rfl, rfl, rfl, rfl, rfl, rfl, rfl⟩
    | some row =>
      simp only [createSalesTransactionItem_eq]
      obtain ⟨i1, i2, i3, i4, i5, i6, i7, i8⟩ := ih
        { db with
            nextId := db.nextId + 1
            salesTransactionItems :=
              db.salesTransactionItems ++ [{ row with id := toString db.nextId }] } txId
      exact ⟨i1, i2, i3, i4, i5, i6, i7, i8⟩

theorem insertRawSalesItems_spec (items : List SalesItemInput) :
    ∀ (db : DB) (txId : String), (∀ it ∈ items, salesItemValid it = true) →
      (insertRawSalesItems db txId items).2 = true ∧
      ∃ rows, (insertRawSalesItems db txId items).1.salesTransactionItems =
          db.salesTransactionItems ++ rows ∧
        rows.map itemFields = items.map (inputFields txId) ∧
        (∀ r ∈ rows, r.transactionId = txId) := by
  induction items with
  | nil =>
    intro db txId _h
    exact ⟨rfl, [], by simp [insertRawSalesItems], by simp, by simp⟩
  | cons it rest ih =>
    intro db txId hval
    obtain ⟨row, hp⟩ := parseSalesItem_eq_some txId it (hval it (List.mem_cons_self _ _))
    have hstep : insertRawSalesItems db txId (it :: rest) =
        insertRawSalesItems (createSalesTransactionItem db row).1 txId rest := by
      conv_lhs => rw [insertRawSalesItems]
      rw [hp]
    rw [hstep]
    obtain ⟨b1, rows, hr1, hr2, hr3⟩ := ih (createSalesTransactionItem db row).1 txId
      (fun x hx => hval x (List.mem_cons_of_mem _ hx))
    obtain ⟨hfields, htx⟩ := parseSalesItem_fields txId it row hp
    refine ⟨b1, { row with id := toString db.nextId } :: rows, ?_, ?_, ?_⟩
    · rw [hr1, createSalesTransactionItem_eq]
      try simp
    · simp only [List.map_cons, hr2]
      congr 1
      try rw [← hfields]
      try rfl
    · intro r hr
      rcases List.mem_cons.mp hr with h | h
      · subst h; exact htx
      · exact hr3 r h

theorem createPurchaseOrderItem_eq (db : DB) (it : PurchaseOrderItem) :
    createPurchaseOrderItem db it =
      ({ db with
          nextId := db.nextId + 1
          purchaseOrderItems :=
            db.purchaseOrderItems ++ [{ it with id := toString db.nextId }] },
       { it with id := toString db.nextId }) := rfl

theorem processPurchaseItems_cons_some (db : DB) (orderId : String)
    (it : PurchaseItemInput) (rest : List PurchaseItemInput) (row : PurchaseOrderItem)
    (hp : parsePurchaseItem orderId it = some row) :
    processPurchaseItems db orderId (it :: rest) =
      ((processPurchaseItems (createPurchaseOrderItem db row).1 orderId rest).1,
       (processPurchaseItems (createPurchaseOrderItem db row).1 orderId rest).2.map
         (fun more => (createPurchaseOrderItem db row).2 :: more)) := by
  conv_lhs => rw [processPurchaseItems]
  rw [hp]

theorem processPurchaseItems_frame (items : List PurchaseItemInput) :
    ∀ (db : DB) (orderId : String),
      (processPurchaseItems db orderId items).1.customers = db.customers ∧
      (processPurchaseItems db orderId items).1.suppliers = db.suppliers ∧
      (processPurchaseItems db orderId items).1.tanks = db.tanks ∧
      (processPurchaseItems db orderId items).1.salesTransactions = db.salesTransactions ∧
      (processPurchaseItems db orderId items).1.salesTransactionItems =
        db.salesTransactionItems ∧
      (processPurchaseItems db orderId items).1.stockMovements = db.stockMovements ∧
      (processPurchaseItems db orderId items).1.purchaseOrders = db.purchaseOrders ∧
      (processPurchaseItems db orderId items).1.settings = db.settings := by
  induction items with
  | nil => intro db orderId; exact ⟨rfl, rfl, rfl, rfl, rfl, rfl, rfl, rfl⟩
  | cons it rest ih =>
    intro db orderId
    cases hp : parsePurchaseItem orderId it with
    | none =>
      have : processPurchaseItems db orderId (it :: rest) = (db, none) := by
        conv_lhs => rw [processPurchaseItems]
        rw [hp]
      rw [this]
      exact ⟨rfl, rfl, rfl, rfl, rfl, rfl, rfl, rfl⟩
    | some row =>
      rw [processPurchaseItems_cons_some db orderId it rest row hp]
      obtain ⟨i1, i2, i3, i4, i5, i6, i7, i8⟩ := ih (createPurchaseOrderItem db row).1 orderId
      rw [createPurchaseOrderItem_eq] at i1 i2 i3 i4 i5 i6 i7 i8
      exact ⟨i1, i2, i3, i4, i5, i6, i7, i8⟩

/-- The header row `POST /api/sales` persists for validated header `v`:
`v` with the fresh storage id. -/
def saleHeaderRow (db : DB) (v : SalesTransaction) : SalesTransaction :=
  { v with id := toString db.nextId }

/-- The store right after the validated sale header is persisted. -/
def saleHeaderDB (db : DB) (v : SalesTransaction) : DB :=
  { db with
      nextId := db.nextId + 1
      salesTransactions := db.salesTransactions ++ [saleHeaderRow db v] }

theorem createSalesTransaction_eq' (db : DB) (v : SalesTransaction) :
    createSalesTransaction db v = (saleHeaderDB db v, saleHeaderRow db v) := rfl

theorem postSales_parse_none (db : DB) (inv : String) (t : SalesTransactionInput)
    (items : List SalesItemInput) (h : parseSalesTransaction inv t = none) :
    postSales db inv t items = { status := 400, db := db, tx := none } := by
  unfold postSales
  rw [h]

theorem postSales_parse_some (db : DB) (inv : String) (t : SalesTransactionInput)
    (items : List SalesItemInput) (v : SalesTransaction)
    (h : parseSalesTransaction inv t = some v) :
    postSales db inv t items =
      (match (processSaleItems (saleHeaderDB db v) (saleHeaderRow db v) items).2 with
       | none =>
         { status := 400
           db := (processSaleItems (saleHeaderDB db v) (saleHeaderRow db v) items).1
           tx := none }
       | some _ =>
         { status := 201
           db := if v.paymentMethod == "credit" && !(v.customerId == "") then
               updateCustomerOutstanding
                 (processSaleItems (saleHeaderDB db v) (saleHeaderRow db v) items).1
                 v.customerId (v.outstandingAmount.getD 0)
             else (processSaleItems (saleHeaderDB db v) (saleHeaderRow db v) items).1
           tx := some (saleHeaderRow db v) }) := by
  unfold postSales
  rw [h]
  simp only [createSalesTransaction_eq']
  rcases hr : processSaleItems (saleHeaderDB db v) (saleHeaderRow db v) items with ⟨db2, res⟩
  cases res <;> simp [hr]

/-! ### Concrete fixtures used by witnesses and counterexamples -/

def tank1 : Tank :=
  { id := "t1", stationId := "s1", productId := "p1", capacity := 5000, currentStock := 100 }

def cust1 : Customer := { id := "c1", name := "Acme", outstandingAmount := some 20 }

def dbFix : DB := { customers := [cust1], tanks := [tank1] }

def hdrCredit : SalesTransactionInput where
  stationId := some "s1"
  customerId := some "c1"
  userId := some "u1"
  paymentMethod := some "credit"
  subtotal := some 100
  totalAmount := some 100
  outstandingAmount := some 100

def hdrCash : SalesTransactionInput where
  stationId := some "s1"
  customerId := some "c1"
  userId := some "u1"
  paymentMethod := some "cash"
  subtotal := some 100
  totalAmount := some 100
  paidAmount := some 100

def itemT1 : SalesItemInput where
  productId := some "p1"
  tankId := some "t1"
  quantity := some 10
  unitPrice := some 10
  totalPrice := some 100

def itemT1b : SalesItemInput where
  productId := some "p1"
  tankId := some "t1"
  quantity := some 5
  unitPrice := some 10
  totalPrice := some 50

def itemNoTank : SalesItemInput where
  productId := some "p2"
  quantity := some 3
  unitPrice := some 4
  totalPrice := some 12

def itemBad : SalesItemInput where
  tankId := some "t1"
  quantity := some 5

/-! ### Claims -/

/-- C1, counterexample: a POST /api/sales request whose validated transaction
has payment method "credit" and customer "c1" but whose second item fails
validation answers 400 with the credit header already committed — yet
customer "c1"'s outstandingAmount is NOT increased (it stays at 20 although
the transaction's outstandingAmount is 100). -/
theorem c1_failed_credit_sale_skips_outstanding :
    (postSales dbFix "SAL1" hdrCredit [itemT1, itemBad]).status = 400 ∧
    (postSales dbFix "SAL1" hdrCredit [itemT1, itemBad]).db.salesTransactions.map
      (fun tr => (tr.paymentMethod, tr.customerId, tr.outstandingAmount)) =
      [("credit", "c1", some 100)] ∧
    (postSales dbFix "SAL1" hdrCredit [itemT1, itemBad]).db.customers.map
      (fun c => (c.id, c.outstandingAmount)) = [("c1", some 20)] := by
  refine ⟨?_, ?_, ?_⟩ <;> decide

/-- C1 (amended): for every POST /api/sales request that completes
successfully (HTTP 201), if the created transaction has payment method
"credit" and a non-empty customerId then that customer's outstandingAmount
increases by exactly the transaction's outstandingAmount (parsed as a number,
0 when absent) and every other customer row is untouched; for any other
payment method or an empty customer the customer table is unchanged — as it
also is whenever the request does not complete (the outstanding update is
skipped on a mid-request validation failure). -/
theorem c1_sales_credit_outstanding (db : DB) (inv : String)
    (t : SalesTransactionInput) (items : List SalesItemInput) (r : SalesResult)
    (h : r = postSales db inv t items) :
    (r.status = 201 → ∀ vtx, r.tx = some vtx →
      ((vtx.paymentMethod = "credit" → vtx.customerId ≠ "" →
        (∀ cust, getCustomer db vtx.customerId = some cust →
          getCustomer r.db vtx.customerId =
            some { cust with
              outstandingAmount := some (cust.outstandingAmount.getD 0 + vtx.outstandingAmount.getD 0) }) ∧
        (∀ x ∈ db.customers, x.id ≠ vtx.customerId → x ∈ r.db.customers)) ∧
       ((vtx.paymentMethod ≠ "credit" ∨ vtx.customerId = "") →
         r.db.customers = db.customers))) ∧
    (r.status ≠ 201 → r.db.customers = db.customers) := by
  cases hv : parseSalesTransaction inv t with
  | none =>
    rw [postSales_parse_none db inv t items hv] at h
    subst h
    exact ⟨fun h201 => by simp at h201, fun _ => rfl⟩
  | some v =>
    rw [postSales_parse_some db inv t items v hv] at h
    have hP1 : (processSaleItems (saleHeaderDB db v) (saleHeaderRow db v) items).1.customers
        = db.customers :=
      (processSaleItems_frame items (saleHeaderDB db v) (saleHeaderRow db v)).1
    cases hres : (processSaleItems (saleHeaderDB db v) (saleHeaderRow db v) items).2 with
    | none =>
      rw [hres] at h
      subst h
      exact ⟨fun h201 => by simp at h201, fun _ => hP1⟩
    | some created =>
      rw [hres] at h
      subst h
      refine ⟨?_, fun hne => absurd rfl hne⟩
      intro _ vtx hvtx
      injection hvtx with hvtx
      subst hvtx
      by_cases hb : (v.paymentMethod == "credit" && !(v.customerId == "")) = true
      · constructor
        · intro _ _
          constructor
          · intro cust hcust
            show getCustomer
              (if (v.paymentMethod == "credit" && !(v.customerId == "")) = true then
                updateCustomerOutstanding
                  (processSaleItems (saleHeaderDB db v) (saleHeaderRow db v) items).1
                  v.customerId (v.outstandingAmount.getD 0)
              else (processSaleItems (saleHeaderDB db v) (saleHeaderRow db v) items).1)
              v.customerId =
              some { cust with
                outstandingAmount := some (cust.outstandingAmount.getD 0 + v.outstandingAmount.getD 0) }
            rw [if_pos hb, getCustomer_updateCustomerOutstanding]
            have hgc : getCustomer
                (processSaleItems (saleHeaderDB db v) (saleHeaderRow db v) items).1
                v.customerId = getCustomer db v.customerId := by
              unfold getCustomer
              rw [hP1]
            rw [hgc]
            have hcust' : getCustomer db v.customerId = some cust := hcust
            rw [hcust']
            rfl
          · intro x hx hne
            show x ∈ (if (v.paymentMethod == "credit" && !(v.customerId == "")) = true then
                updateCustomerOutstanding
                  (processSaleItems (saleHeaderDB db v) (saleHeaderRow db v) items).1
                  v.customerId (v.outstandingAmount.getD 0)
              else (processSaleItems (saleHeaderDB db v) (saleHeaderRow db v) items).1).customers
            rw [if_pos hb]
            apply updateCustomerOutstanding_mem_other
            · rw [hP1]; exact hx
            · exact hne
        · intro hdisj
          exfalso
          simp only [Bool.and_eq_true, beq_iff_eq, Bool.not_eq_true', beq_eq_false_iff_ne,
            ne_eq] at hb
          rcases hdisj with hpm | hcid
          · exact hpm hb.1
          · exact hb.2 hcid
      · have hbF : (v.paymentMethod == "credit" && !(v.customerId == "")) = false := by
          simpa using hb
        constructor
        · intro hpm hcid
          have hpm' : v.paymentMethod = "credit" := hpm
          have hcid' : v.customerId ≠ "" := hcid
          simp [hpm', hcid'] at hbF
        · intro _
          show (if (v.paymentMethod == "credit" && !(v.customerId == "")) = true then
              updateCustomerOutstanding
                (processSaleItems (saleHeaderDB db v) (saleHeaderRow db v) items).1
                v.customerId (v.outstandingAmount.getD 0)
            else (processSaleItems (saleHeaderDB db v) (saleHeaderRow db v) items).1).customers
            = db.customers
          rw [if_neg (by simp [hbF])]
          exact hP1

/-- C1 witness: running the amended theorem on a concrete successful credit
sale (empty item list, station s1, customer c1 with prior outstanding 20 and
transaction outstanding 100) shows the stored outstanding becomes 20 + 100. -/
theorem c1_sales_credit_outstanding_witness :
    getCustomer (postSales dbFix "SAL2" hdrCredit []).db "c1" =
      some { cust1 with outstandingAmount := some 120 } := by
  have h := (c1_sales_credit_outstanding dbFix "SAL2" hdrCredit [] _ rfl).1
    (by decide)
    { id := "0", invoiceNumber := "SAL2", stationId := "s1", customerId := "c1",
      userId := "u1", paymentMethod := "credit", subtotal := 100,
      totalAmount := 100, outstandingAmount := some 100 }
    (by decide)
  have h2 := (h.1 rfl (by decide)).1 cust1 (by decide)
  convert h2 using 4
  norm_num [cust1]

/-- C4, counterexample: a POST /api/sales request with a valid header and an
EMPTY items list is not rejected — it answers 201 and commits the transaction
header (claimed: 400 with no transaction created). -/
theorem c4_empty_items_accepted :
    (postSales dbFix "SAL9" hdrCash []).status = 201 ∧
    (postSales dbFix "SAL9" hdrCash []).db.salesTransactions.map
      (fun tr => tr.invoiceNumber) = ["SAL9"] ∧
    (postSales dbFix "SAL9" hdrCash []).db.salesTransactionItems = [] := by
  refine ⟨?_, ?_, ?_⟩ <;> decide

/-- C4 (amended): a POST /api/sales request whose items list is empty and
whose transaction header validates is accepted with HTTP 201, creating the
transaction header with no items and no stock movements (the handler has no
emptiness check on `items`). -/
theorem c4_sales_empty_items (db : DB) (inv : String) (t : SalesTransactionInput)
    (v : SalesTransaction) (hv : parseSalesTransaction inv t = some v) :
    (postSales db inv t []).status = 201 ∧
    (postSales db inv t []).db.salesTransactions =
      db.salesTransactions ++ [saleHeaderRow db v] ∧
    (postSales db inv t []).db.salesTransactionItems = db.salesTransactionItems ∧
    (postSales db inv t []).db.stockMovements = db.stockMovements := by
  by_cases hb : (v.paymentMethod == "credit" && !(v.customerId == "")) = true <;>
    simp [postSales_parse_some db inv t [] v hv, processSaleItems_nil, hb,
      updateCustomerOutstanding, saleHeaderDB]

/-- C4 witness: the amended claim at a concrete cash sale with no items. -/
theorem c4_sales_empty_items_witness :
    (postSales dbFix "SAL9" hdrCash []).status = 201 ∧
    (postSales dbFix "SAL9" hdrCash []).db.salesTransactions =
      dbFix.salesTransactions ++
        [saleHeaderRow dbFix
          { id := "", invoiceNumber := "SAL9", stationId := "s1", customerId := "c1",
            userId := "u1", paymentMethod := "cash", subtotal := 100,
            totalAmount := 100, paidAmount := some 100 }] ∧
    (postSales dbFix "SAL9" hdrCash []).db.salesTransactionItems =
      dbFix.salesTransactionItems ∧
    (postSales dbFix "SAL9" hdrCash []).db.stockMovements = dbFix.stockMovements :=
  c4_sales_empty_items dbFix "SAL9" hdrCash
    { id := "", invoiceNumber := "SAL9", stationId := "s1", customerId := "c1",
      userId := "u1", paymentMethod := "cash", subtotal := 100,
      totalAmount := 100, paidAmount := some 100 }
    (by decide)

/-- C3 (confirmed): POST /api/sales is not atomic.  When the header validates
but the k-th item fails validation, the request answers 400 while the header
and the k-1 earlier items — with one stock movement per earlier tank-bearing
item — remain committed.  (No customer balance is touched either: the
outstanding update comes after the loop.) -/
theorem c3_sales_not_atomic (db : DB) (inv : String) (t : SalesTransactionInput)
    (pre : List SalesItemInput) (bad : SalesItemInput) (rest : List SalesItemInput)
    (v : SalesTransaction) (hv : parseSalesTransaction inv t = some v)
    (hpre : ∀ it ∈ pre, salesItemValid it = true)
    (hbad : salesItemValid bad = false)
    (hex : ∀ it ∈ pre, hasTank it = true → ∃ tk ∈ db.tanks, tk.id = it.tankId.getD "") :
    (postSales db inv t (pre ++ bad :: rest)).status = 400 ∧
    (postSales db inv t (pre ++ bad :: rest)).db.salesTransactions =
      db.salesTransactions ++ [saleHeaderRow db v] ∧
    (postSales db inv t (pre ++ bad :: rest)).db.salesTransactionItems.length =
      db.salesTransactionItems.length + pre.length ∧
    (postSales db inv t (pre ++ bad :: rest)).db.stockMovements.length =
      db.stockMovements.length + (pre.filter hasTank).length ∧
    (postSales db inv t (pre ++ bad :: rest)).db.customers = db.customers := by
  rw [postSales_parse_some db inv t (pre ++ bad :: rest) v hv]
  obtain ⟨f1, f2, f3⟩ := processSaleItems_fail_spec pre (saleHeaderDB db v)
    (saleHeaderRow db v) bad rest hpre hbad hex
  simp only [f1]
  obtain ⟨g1, _, g3, -⟩ := processSaleItems_frame (pre ++ bad :: rest)
    (saleHeaderDB db v) (saleHeaderRow db v)
  exact ⟨trivial, g3, f2, f3, g1⟩

/-- C3 witness: a concrete cash sale whose second item is invalid leaves the
header and the first item (with its stock movement) committed. -/
theorem c3_sales_not_atomic_witness :
    (postSales dbFix "SAL1" hdrCash [itemT1, itemBad, itemT1b]).status = 400 ∧
    (postSales dbFix "SAL1" hdrCash [itemT1, itemBad, itemT1b]).db.salesTransactions =
      dbFix.salesTransactions ++
        [saleHeaderRow dbFix
          { id := "", invoiceNumber := "SAL1", stationId := "s1", customerId := "c1",
            userId := "u1", paymentMethod := "cash", subtotal := 100,
            totalAmount := 100, paidAmount := some 100 }] ∧
    (postSales dbFix "SAL1" hdrCash
      [itemT1, itemBad, itemT1b]).db.salesTransactionItems.length =
      dbFix.salesTransactionItems.length + [itemT1].length ∧
    (postSales dbFix "SAL1" hdrCash [itemT1, itemBad, itemT1b]).db.stockMovements.length =
      dbFix.stockMovements.length + ([itemT1].filter hasTank).length ∧
    (postSales dbFix "SAL1" hdrCash [itemT1, itemBad, itemT1b]).db.customers =
      dbFix.customers := by
  have h := c3_sales_not_atomic dbFix "SAL1" hdrCash [itemT1] itemBad [itemT1b]
    { id := "", invoiceNumber := "SAL1", stationId := "s1", customerId := "c1",
      userId := "u1", paymentMethod := "cash", subtotal := 100,
      totalAmount := 100, paidAmount := some 100 }
    (by decide) (by decide) (by decide) (by decide)
  simpa using h

/-- C2, counterexample: a successful sale with TWO items on the same tank
(stock 100, quantities 10 and 5).  Each item gets exactly one "out" movement
with `previousStock - quantity = newStock` (100→90, then 90→85), but the
tank's `currentStock` after the operation is 85 — it does NOT equal the first
item's movement `newStock` of 90, refuting the claim's "the tank's
currentStock after the operation equals newStock" for every tank item. -/
theorem c2_same_tank_twice_counterexample :
    (postSales dbFix "SAL1" hdrCash [itemT1, itemT1b]).status = 201 ∧
    (postSales dbFix "SAL1" hdrCash [itemT1, itemT1b]).db.stockMovements.map
      (fun m => (m.tankId, m.previousStock, m.newStock)) =
      [("t1", 100, 90), ("t1", 90, 85)] ∧
    (postSales dbFix "SAL1" hdrCash [itemT1, itemT1b]).db.tanks.map
      (fun tk => (tk.id, tk.currentStock)) = [("t1", 85)] := by
  have e1 : (100:ℚ) - 10 = 90 := by norm_num
  have e2 : (90:ℚ) - 5 = 85 := by norm_num
  refine ⟨?_, ?_, ?_⟩ <;>
    simp [postSales, parseSalesTransaction, processSaleItems, parseSalesItem,
      createSalesTransaction, createSalesTransactionItem, createStockMovement, genId,
      saleMovementArg, hasTank, updateCustomerOutstanding, dbFix, hdrCash, itemT1,
      itemT1b, tank1, cust1, paymentMethods, e1, e2]

/-- C2 (amended): for every item of a successful (HTTP 201) POST /api/sales
request that passes the tank guard, exactly one StockMovement is created — in
item order — with movementType "out", the item's quantity, referenceType
"sale", referenceId the created transaction's id, and
`previousStock - quantity = newStock`; items without a tank produce no
movement.  A tank's `currentStock` after the operation equals the `newStock`
of the LAST movement created for that tank (so the item's own `newStock`
whenever no later item of the same request references the same tank), and
tanks no movement touched are unchanged. -/
theorem c2_sales_stock_movements (db : DB) (inv : String) (t : SalesTransactionInput)
    (items : List SalesItemInput) (r : SalesResult) (vtx : SalesTransaction)
    (h : r = postSales db inv t items) (h201 : r.status = 201) (htx : r.tx = some vtx)
    (hex : ∀ it ∈ items, hasTank it = true → ∃ tk ∈ db.tanks, tk.id = it.tankId.getD "") :
    ∃ l, r.db.stockMovements = db.stockMovements ++ l ∧
      List.Forall₂ (saleMovementMatches vtx.id) (items.filter hasTank) l ∧
      (∀ t' ∈ r.db.tanks,
        ((l.filter (fun m => m.tankId == t'.id)).getLast? = none → t' ∈ db.tanks) ∧
        (∀ m, (l.filter (fun m => m.tankId == t'.id)).getLast? = some m →
          t'.currentStock = m.newStock)) := by
  cases hv : parseSalesTransaction inv t with
  | none =>
    rw [postSales_parse_none db inv t items hv] at h
    subst h
    simp at h201
  | some v =>
    rw [postSales_parse_some db inv t items v hv] at h
    cases hres : (processSaleItems (saleHeaderDB db v) (saleHeaderRow db v) items).2 with
    | none =>
      rw [hres] at h
      subst h
      simp at h201
    | some created =>
      rw [hres] at h
      subst h
      injection htx with htx
      subst htx
      have hrun : processSaleItems (saleHeaderDB db v) (saleHeaderRow db v) items =
          ((processSaleItems (saleHeaderDB db v) (saleHeaderRow db v) items).1,
           some created) := by
        conv_lhs => rw [← Prod.mk.eta
          (p := processSaleItems (saleHeaderDB db v) (saleHeaderRow db v) items)]
        rw [hres]
      obtain ⟨l, hm, hf, hinv, -⟩ := processSaleItems_ok_spec items (saleHeaderDB db v)
        (saleHeaderRow db v)
        (processSaleItems (saleHeaderDB db v) (saleHeaderRow db v) items).1 created hrun hex
      refine ⟨l, ?_, hf, ?_⟩
      · show (if (v.paymentMethod == "credit" && !(v.customerId == "")) = true then
            updateCustomerOutstanding
              (processSaleItems (saleHeaderDB db v) (saleHeaderRow db v) items).1
              v.customerId (v.outstandingAmount.getD 0)
          else (processSaleItems (saleHeaderDB db v) (saleHeaderRow db v) items).1).stockMovements
          = db.stockMovements ++ l
        by_cases hb : (v.paymentMethod == "credit" && !(v.customerId == "")) = true
        · rw [if_pos hb]
          exact hm
        · rw [if_neg hb]
          exact hm
      · intro t' ht'
        have ht'P : t' ∈
            (processSaleItems (saleHeaderDB db v) (saleHeaderRow db v) items).1.tanks := by
          revert ht'
          show t' ∈ (if (v.paymentMethod == "credit" && !(v.customerId == "")) = true then
              updateCustomerOutstanding
                (processSaleItems (saleHeaderDB db v) (saleHeaderRow db v) items).1
                v.customerId (v.outstandingAmount.getD 0)
            else (processSaleItems (saleHeaderDB db v) (saleHeaderRow db v) items).1).tanks
            → t' ∈ (processSaleItems (saleHeaderDB db v) (saleHeaderRow db v) items).1.tanks
          by_cases hb : (v.paymentMethod == "credit" && !(v.customerId == "")) = true
          · rw [if_pos hb]
            exact fun hx => hx
          · rw [if_neg hb]
            exact fun hx => hx
        exact hinv t' ht'P

/-- C2 witness: the amended claim at a one-item fuel sale (tank t1, stock
100, quantity 10). -/
theorem c2_sales_stock_movements_witness :
    ∃ l, (postSales dbFix "SAL1" hdrCash [itemT1]).db.stockMovements =
        dbFix.stockMovements ++ l ∧
      List.Forall₂
        (saleMovementMatches
          (saleHeaderRow dbFix
            { id := "", invoiceNumber := "SAL1", stationId := "s1", customerId := "c1",
              userId := "u1", paymentMethod := "cash", subtotal := 100,
              totalAmount := 100, paidAmount := some 100 }).id)
        ([itemT1].filter hasTank) l ∧
      (∀ t' ∈ (postSales dbFix "SAL1" hdrCash [itemT1]).db.tanks,
        ((l.filter (fun m => m.tankId == t'.id)).getLast? = none → t' ∈ dbFix.tanks) ∧
        (∀ m, (l.filter (fun m => m.tankId == t'.id)).getLast? = some m →
          t'.currentStock = m.newStock)) :=
  c2_sales_stock_movements dbFix "SAL1" hdrCash [itemT1] _
    (saleHeaderRow dbFix
      { id := "", invoiceNumber := "SAL1", stationId := "s1", customerId := "c1",
        userId := "u1", paymentMethod := "cash", subtotal := 100,
        totalAmount := 100, paidAmount := some 100 })
    rfl (by decide) (by decide) (by decide)

theorem filter_tx_of_filter_not (l : List SalesTransactionItem) (txId : String) :
    (l.filter (fun x => !(x.transactionId == txId))).filter
      (fun x => x.transactionId == txId) = [] := by
  induction l with
  | nil => rfl
  | cons a l ih =>
    by_cases h : a.transactionId == txId
    · simp only [List.filter_cons]
      rw [if_neg (by simp [h])]
      exact ih
    · simp only [List.filter_cons]
      rw [if_pos (by simp [h])]
      simp only [List.filter_cons]
      rw [if_neg (by simp [h])]
      exact ih

/-- C8 (confirmed): after PUT /api/sales/:transactionId with an existing,
accessible transaction and a well-formed items list, the stored item set of
that transaction equals the submitted items semantically — one stored row per
submitted item, in order, with the same product, tank, quantity, unit price
and total price, each back-referencing the transaction id — regardless of
what items were stored before. -/
theorem c8_put_sales_replaces_items (db : DB) (user : AuthUser) (txId : String)
    (patch : SalesTransactionPatch) (items : List SalesItemInput)
    (tx0 : SalesTransaction) (hfind : getSalesTransaction db txId = some tx0)
    (hacc : user.role = "admin" ∨ user.stationId = some tx0.stationId)
    (hval : ∀ it ∈ items, salesItemValid it = true) :
    (putSales db user txId patch items).status = 200 ∧
    ((putSales db user txId patch items).db.salesTransactionItems.filter
      (fun x => x.transactionId == txId)).map itemFields =
      items.map (inputFields txId) := by
  have hacc' : (!(user.role == "admin") && !(user.stationId == some tx0.stationId))
      = false := by
    rcases hacc with h | h <;> simp [h]
  have hput : putSales db user txId patch items =
      (match insertRawSalesItems
          (deleteSalesTransactionItems (updateSalesTransaction db txId patch) txId)
          txId items with
       | (db3, true) => { status := 200, db := db3 }
       | (db3, false) => { status := 500, db := db3 }) := by
    unfold putSales
    rw [hfind]
    simp only [hacc', Bool.false_eq_true, if_false]
  obtain ⟨hok, rows, hr1, hr2, hr3⟩ := insertRawSalesItems_spec items
    (deleteSalesTransactionItems (updateSalesTransaction db txId patch) txId)
    txId hval
  have hpair : insertRawSalesItems
      (deleteSalesTransactionItems (updateSalesTransaction db txId patch) txId)
      txId items =
      ((insertRawSalesItems
        (deleteSalesTransactionItems (updateSalesTransaction db txId patch) txId)
        txId items).1, true) := by
    conv_lhs => rw [← Prod.mk.eta
      (p := insertRawSalesItems
        (deleteSalesTransactionItems (updateSalesTransaction db txId patch) txId)
        txId items)]
    rw [hok]
  rw [hput, hpair]
  refine ⟨rfl, ?_⟩
  show ((insertRawSalesItems
      (deleteSalesTransactionItems (updateSalesTransaction db txId patch) txId)
      txId items).1.salesTransactionItems.filter
        (fun x => x.transactionId == txId)).map itemFields =
      items.map (inputFields txId)
  rw [hr1]
  have hdel : (deleteSalesTransactionItems (updateSalesTransaction db txId patch)
      txId).salesTransactionItems =
      (updateSalesTransaction db txId patch).salesTransactionItems.filter
        (fun x => !(x.transactionId == txId)) := rfl
  rw [List.filter_append, hdel, filter_tx_of_filter_not, List.nil_append]
  have hall : rows.filter (fun x => x.transactionId == txId) = rows := by
    rw [List.filter_eq_self]
    intro r hr
    simp [hr3 r hr]
  rw [hall, hr2]

def txFix : SalesTransaction where
  id := "T1"
  invoiceNumber := "SAL1"
  stationId := "s1"
  customerId := "c1"
  userId := "u1"
  paymentMethod := "cash"
  subtotal := 100
  totalAmount := 100

def itemOld : SalesTransactionItem where
  id := "I1"
  transactionId := "T1"
  productId := "p9"
  quantity := 7
  unitPrice := 2
  totalPrice := 14

def dbPut : DB := { salesTransactions := [txFix], salesTransactionItems := [itemOld] }

/-- C8 witness: replacing the single stored item of a concrete transaction
with a different single submitted item yields exactly that submitted item. -/
theorem c8_put_sales_replaces_items_witness :
    (putSales dbPut { id := "u1", role := "admin" } "T1" {} [itemT1b]).status = 200 ∧
    (((putSales dbPut { id := "u1", role := "admin" } "T1" {}
        [itemT1b]).db.salesTransactionItems.filter
        (fun x => x.transactionId == "T1")).map itemFields) =
      [itemT1b].map (inputFields "T1") :=
  c8_put_sales_replaces_items dbPut { id := "u1", role := "admin" } "T1" {} [itemT1b]
    txFix (by decide) (Or.inl rfl) (by decide)

/-- C9 (confirmed): PUT /api/sales/:transactionId — on every path (404, 403,
success or mid-loop failure) — never creates a StockMovement, never changes
any tank's currentStock, and never modifies any customer's (or supplier's)
outstandingAmount: inventory and receivable balances are untouched by edits,
even for tank-referencing items or credit sales. -/
theorem c9_put_sales_frame (db : DB) (user : AuthUser) (txId : String)
    (patch : SalesTransactionPatch) (items : List SalesItemInput) :
    (putSales db user txId patch items).db.stockMovements = db.stockMovements ∧
    (putSales db user txId patch items).db.tanks = db.tanks ∧
    (putSales db user txId patch items).db.customers = db.customers ∧
    (putSales db user txId patch items).db.suppliers = db.suppliers := by
  unfold putSales
  cases hf : getSalesTransaction db txId with
  | none => exact ⟨rfl, rfl, rfl, rfl⟩
  | some tx0 =>
    by_cases hc : (!(user.role == "admin") && !(user.stationId == some tx0.stationId))
        = true
    · simp [hc]
    · have hcF : (!(user.role == "admin") && !(user.stationId == some tx0.stationId))
          = false := by simpa using hc
      simp only [hcF, Bool.false_eq_true, if_false]
      obtain ⟨i1, i2, i3, -, i5, -, -, -⟩ := insertRawSalesItems_frame items
        (deleteSalesTransactionItems (updateSalesTransaction db txId patch) txId) txId
      rcases hrun : insertRawSalesItems
          (deleteSalesTransactionItems (updateSalesTransaction db txId patch) txId)
          txId items with ⟨db3, ok⟩
      rw [hrun] at i1 i2 i3 i5
      cases ok <;> exact ⟨i5, i3, i1, i2⟩

theorem createPurchaseOrder_eq (db : DB) (o : PurchaseOrder) :
    createPurchaseOrder db o =
      ({ db with
          nextId := db.nextId + 1
          purchaseOrders := db.purchaseOrders ++ [{ o with id := toString db.nextId }] },
       { o with id := toString db.nextId }) := rfl

theorem createSettings_eq (db : DB) (s : Settings) :
    createSettings db s =
      ({ db with
          nextId := db.nextId + 1
          settings := db.settings ++ [{ s with id := toString db.nextId }] },
       { s with id := toString db.nextId }) := rfl

/-- The tax rate `POST /api/purchase-orders` effectively applies for a
station: the configured rate when a settings row exists with tax enabled,
otherwise 0 (also the rate of the default settings row it creates). -/
def stationTaxRate (db : DB) (sid : String) : ℚ :=
  match getSettings db sid with
  | some cfg => effectiveTaxRate cfg
  | none => 0

theorem effectiveTaxRate_getOrCreate (db : DB) (sid : String) :
    effectiveTaxRate (getOrCreateSettings db sid).2 = stationTaxRate db sid := by
  unfold getOrCreateSettings stationTaxRate
  cases h : getSettings db sid with
  | some cfg => rfl
  | none => rfl

theorem getOrCreateSettings_frame (db : DB) (sid : String) :
    (getOrCreateSettings db sid).1.customers = db.customers ∧
    (getOrCreateSettings db sid).1.suppliers = db.suppliers ∧
    (getOrCreateSettings db sid).1.tanks = db.tanks ∧
    (getOrCreateSettings db sid).1.salesTransactions = db.salesTransactions ∧
    (getOrCreateSettings db sid).1.salesTransactionItems = db.salesTransactionItems ∧
    (getOrCreateSettings db sid).1.stockMovements = db.stockMovements ∧
    (getOrCreateSettings db sid).1.purchaseOrders = db.purchaseOrders ∧
    (getOrCreateSettings db sid).1.purchaseOrderItems = db.purchaseOrderItems := by
  unfold getOrCreateSettings
  cases h : getSettings db sid with
  | some cfg => exact ⟨rfl, rfl, rfl, rfl, rfl, rfl, rfl, rfl⟩
  | none => exact ⟨rfl, rfl, rfl, rfl, rfl, rfl, rfl, rfl⟩

theorem getOrCreateSettings_settings (db : DB) (sid : String) :
    (getSettings db sid ≠ none → (getOrCreateSettings db sid).1.settings = db.settings) ∧
    (getSettings db sid = none → (getOrCreateSettings db sid).1.settings =
      db.settings ++
        [{ id := toString db.nextId, stationId := sid, taxEnabled := some false,
           taxRate := some 0, currencyCode := "PKR" }]) := by
  unfold getOrCreateSettings
  cases h : getSettings db sid with
  | some cfg => exact ⟨fun _ => rfl, fun hc => absurd hc (by simp)⟩
  | none => exact ⟨fun hc => absurd rfl hc, fun _ => rfl⟩

/-- The order row `POST /api/purchase-orders` hands to
`storage.createPurchaseOrder` (before the fresh id is assigned). -/
def poInsertRow (db : DB) (sid : String) (user : AuthUser) (order : PurchaseOrderInput)
    (items : List PurchaseItemInput) (onum sup : String) : PurchaseOrder :=
  { id := "", orderNumber := onum, stationId := sid, supplierId := sup,
    userId := user.id, status := order.status, subtotal := poSubtotal items,
    taxAmount := some (poSubtotal items * effectiveTaxRate (getOrCreateSettings db sid).2),
    totalAmount := poSubtotal items +
      poSubtotal items * effectiveTaxRate (getOrCreateSettings db sid).2,
    notes := some (order.notes.getD "") }

theorem postPurchaseOrders_eq (db : DB) (user : AuthUser) (order : PurchaseOrderInput)
    (items : List PurchaseItemInput) (sid : String)
    (hsid : user.stationId = some sid) (hne : (sid == "") = false) :
    postPurchaseOrders db user order items =
      (match order.orderNumber, order.supplierId, order.orderDate with
       | some onum, some sup, some _odate =>
         (match (processPurchaseItems
             (createPurchaseOrder (getOrCreateSettings db sid).1
               (poInsertRow db sid user order items onum sup)).1
             (createPurchaseOrder (getOrCreateSettings db sid).1
               (poInsertRow db sid user order items onum sup)).2.id items).2 with
          | some _ =>
            { status := 201
              db := (processPurchaseItems
                (createPurchaseOrder (getOrCreateSettings db sid).1
                  (poInsertRow db sid user order items onum sup)).1
                (createPurchaseOrder (getOrCreateSettings db sid).1
                  (poInsertRow db sid user order items onum sup)).2.id items).1 }
          | none =>
            { status := 400
              db := (processPurchaseItems
                (createPurchaseOrder (getOrCreateSettings db sid).1
                  (poInsertRow db sid user order items onum sup)).1
                (createPurchaseOrder (getOrCreateSettings db sid).1
                  (poInsertRow db sid user order items onum sup)).2.id items).1 })
       | _, _, _ => { status := 400, db := (getOrCreateSettings db sid).1 }) := by
  unfold postPurchaseOrders
  rw [hsid]
  simp only
  rw [if_neg (by simp [hne] : ¬ (sid == "") = true)]
  rcases hg : getOrCreateSettings db sid with ⟨db1, cfg⟩
  cases hN : order.orderNumber with
  | none => simp [hg]
  | some onum =>
    cases hS : order.supplierId with
    | none => simp [hg]
    | some sup =>
      cases hD : order.orderDate with
      | none => simp [hg]
      | some odate =>
        simp only [hg, poInsertRow]
        rcases hcp : createPurchaseOrder db1
            { id := "", orderNumber := onum, stationId := sid, supplierId := sup,
              userId := user.id, status := order.status, subtotal := poSubtotal items,
              taxAmount := some (poSubtotal items * effectiveTaxRate cfg),
              totalAmount := poSubtotal items + poSubtotal items * effectiveTaxRate cfg,
              notes := some (order.notes.getD "") } with ⟨db2, ord⟩
        rcases hpp : processPurchaseItems db2 ord.id items with ⟨db3, res⟩
        cases res <;> simp [hcp, hpp]

/-- C7 (confirmed): POST /api/purchase-orders creates only the purchase
order and its items — on every path it creates no StockMovement rows, leaves
every tank (hence every `currentStock`) unchanged, and touches no customer,
supplier, sales transaction or sale item. -/
theorem c7_purchase_orders_no_inventory_effect (db : DB) (user : AuthUser)
    (order : PurchaseOrderInput) (items : List PurchaseItemInput) :
    (postPurchaseOrders db user order items).db.stockMovements = db.stockMovements ∧
    (postPurchaseOrders db user order items).db.tanks = db.tanks ∧
    (postPurchaseOrders db user order items).db.customers = db.customers ∧
    (postPurchaseOrders db user order items).db.suppliers = db.suppliers ∧
    (postPurchaseOrders db user order items).db.salesTransactions =
      db.salesTransactions ∧
    (postPurchaseOrders db user order items).db.salesTransactionItems =
      db.salesTransactionItems := by
  cases hs : user.stationId with
  | none =>
    have heq : postPurchaseOrders db user order items = { status := 400, db := db } := by
      unfold postPurchaseOrders
      rw [hs]
    rw [heq]
    exact ⟨rfl, rfl, rfl, rfl, rfl, rfl⟩
  | some sid =>
    by_cases hz : (sid == "") = true
    · have heq : postPurchaseOrders db user order items = { status := 400, db := db } := by
        unfold postPurchaseOrders
        rw [hs]
        simp only
        rw [if_pos hz]
      rw [heq]
      exact ⟨rfl, rfl, rfl, rfl, rfl, rfl⟩
    · have hne : (sid == "") = false := by simpa using hz
      rw [postPurchaseOrders_eq db user order items sid hs hne]
      obtain ⟨g1, g2, g3, g4, g5, g6, -, -⟩ := getOrCreateSettings_frame db sid
      cases hN : order.orderNumber with
      | none => exact ⟨g6, g3, g1, g2, g4, g5⟩
      | some onum =>
        cases hS : order.supplierId with
        | none => exact ⟨g6, g3, g1, g2, g4, g5⟩
        | some sup =>
          cases hD : order.orderDate with
          | none => exact ⟨g6, g3, g1, g2, g4, g5⟩
          | some odate =>
            obtain ⟨p1, p2, p3, p4, p5, p6, -, -⟩ := processPurchaseItems_frame items
              (createPurchaseOrder (getOrCreateSettings db sid).1
                (poInsertRow db sid user order items onum sup)).1
              (createPurchaseOrder (getOrCreateSettings db sid).1
                (poInsertRow db sid user order items onum sup)).2.id
            have q1 : (createPurchaseOrder (getOrCreateSettings db sid).1
                (poInsertRow db sid user order items onum sup)).1.customers =
                (getOrCreateSettings db sid).1.customers := rfl
            have q2 : (createPurchaseOrder (getOrCreateSettings db sid).1
                (poInsertRow db sid user order items onum sup)).1.suppliers =
                (getOrCreateSettings db sid).1.suppliers := rfl
            have q3 : (createPurchaseOrder (getOrCreateSettings db sid).1
                (poInsertRow db sid user order items onum sup)).1.tanks =
                (getOrCreateSettings db sid).1.tanks := rfl
            have q4 : (createPurchaseOrder (getOrCreateSettings db sid).1
                (poInsertRow db sid user order items onum sup)).1.salesTransactions =
                (getOrCreateSettings db sid).1.salesTransactions := rfl
            have q5 : (createPurchaseOrder (getOrCreateSettings db sid).1
                (poInsertRow db sid user order items onum sup)).1.salesTransactionItems =
                (getOrCreateSettings db sid).1.salesTransactionItems := rfl
            have q6 : (createPurchaseOrder (getOrCreateSettings db sid).1
                (poInsertRow db sid user order items onum sup)).1.stockMovements =
                (getOrCreateSettings db sid).1.stockMovements := rfl
            cases hx : (processPurchaseItems
                (createPurchaseOrder (getOrCreateSettings db sid).1
                  (poInsertRow db sid user order items onum sup)).1
                (createPurchaseOrder (getOrCreateSettings db sid).1
                  (poInsertRow db sid user order items onum sup)).2.id items).2 <;>
              simp only [hx] <;>
              exact ⟨p6.trans (q6.trans g6), p3.trans (q3.trans g3),
                p1.trans (q1.trans g1), p2.trans (q2.trans g2),
                p4.trans (q4.trans g4), p5.trans (q5.trans g5)⟩

/-- C5 (confirmed): every purchase order created by POST /api/purchase-orders
satisfies `subtotal = Σ quantity × unitPrice` over the submitted items,
`taxAmount = subtotal × r` where `r` is the station's configured tax rate
(0 when tax is disabled or when no settings row existed), and
`totalAmount = subtotal + taxAmount`; moreover when the station had no
settings row, a zero-rate, tax-disabled default settings row is created on
demand.  The `hnum` hypothesis pins the inputs on which the handler's
`parseFloat(quantity) * parseFloat(unitPrice)` is real arithmetic (a missing
field would give JavaScript `NaN`, which ℚ does not represent). -/
theorem c5_purchase_order_totals (db : DB) (user : AuthUser)
    (order : PurchaseOrderInput) (items : List PurchaseItemInput) (r : ApiResult)
    (sid : String) (h : r = postPurchaseOrders db user order items)
    (hsid : user.stationId = some sid)
    (hnum : ∀ it ∈ items, it.quantity.isSome ∧ it.unitPrice.isSome) :
    (∀ o, o ∈ r.db.purchaseOrders → o ∉ db.purchaseOrders →
      o.subtotal = poSubtotal items ∧
      o.taxAmount = some (o.subtotal * stationTaxRate db sid) ∧
      o.totalAmount = o.subtotal + o.taxAmount.getD 0) ∧
    ((sid == "") = false → getSettings db sid = none →
      r.db.settings = db.settings ++
        [{ id := toString db.nextId, stationId := sid, taxEnabled := some false,
           taxRate := some 0, currencyCode := "PKR" }]) := by
  by_cases hz : (sid == "") = true
  · have heq : postPurchaseOrders db user order items = { status := 400, db := db } := by
      unfold postPurchaseOrders
      rw [hsid]
      simp only
      rw [if_pos hz]
    rw [heq] at h
    subst h
    exact ⟨fun o ho hno => absurd ho hno, fun hne => absurd hz (by simp [hne])⟩
  · have hne : (sid == "") = false := by simpa using hz
    rw [postPurchaseOrders_eq db user order items sid hsid hne] at h
    have hsetdiff := (getOrCreateSettings_settings db sid).2
    have horders : ∀ (dbr : DB),
        dbr.purchaseOrders = (getOrCreateSettings db sid).1.purchaseOrders →
        dbr.purchaseOrders = db.purchaseOrders := by
      intro dbr hd
      rw [hd]
      exact (getOrCreateSettings_frame db sid).2.2.2.2.2.2.1
    cases hN : order.orderNumber with
    | none =>
      rw [hN] at h
      subst h
      exact ⟨fun o ho hno => absurd (horders _ rfl ▸ ho) hno,
        fun _ hnone => hsetdiff hnone⟩
    | some onum =>
      cases hS : order.supplierId with
      | none =>
        rw [hN, hS] at h
        subst h
        exact ⟨fun o ho hno => absurd (horders _ rfl ▸ ho) hno,
          fun _ hnone => hsetdiff hnone⟩
      | some sup =>
        cases hD : order.orderDate with
        | none =>
          rw [hN, hS, hD] at h
          subst h
          exact ⟨fun o ho hno => absurd (horders _ rfl ▸ ho) hno,
            fun _ hnone => hsetdiff hnone⟩
        | some odate =>
          rw [hN, hS, hD] at h
          obtain ⟨p1, p2, p3, p4, p5, p6, p7, p8⟩ := processPurchaseItems_frame items
            (createPurchaseOrder (getOrCreateSettings db sid).1
              (poInsertRow db sid user order items onum sup)).1
            (createPurchaseOrder (getOrCreateSettings db sid).1
              (poInsertRow db sid user order items onum sup)).2.id
          have q7 : (createPurchaseOrder (getOrCreateSettings db sid).1
              (poInsertRow db sid user order items onum sup)).1.purchaseOrders =
              (getOrCreateSettings db sid).1.purchaseOrders ++
                [{ poInsertRow db sid user order items onum sup with
                    id := toString (getOrCreateSettings db sid).1.nextId }] := rfl
          have q8 : (createPurchaseOrder (getOrCreateSettings db sid).1
              (poInsertRow db sid user order items onum sup)).1.settings =
              (getOrCreateSettings db sid).1.settings := rfl
          have hdbr : r.db = (processPurchaseItems
              (createPurchaseOrder (getOrCreateSettings db sid).1
                (poInsertRow db sid user order items onum sup)).1
              (createPurchaseOrder (getOrCreateSettings db sid).1
                (poInsertRow db sid user order items onum sup)).2.id items).1 := by
            cases hx : (processPurchaseItems
                (createPurchaseOrder (getOrCreateSettings db sid).1
                  (poInsertRow db sid user order items onum sup)).1
                (createPurchaseOrder (getOrCreateSettings db sid).1
                  (poInsertRow db sid user order items onum sup)).2.id items).2 <;>
              subst h <;> simp only [hx]
          constructor
          · intro o ho hno
            rw [hdbr, p7, q7] at ho
            simp only [List.mem_append] at ho
            have hmem : o ∈ (getOrCreateSettings db sid).1.purchaseOrders →
                o ∈ db.purchaseOrders := by
              intro hx
              rw [← (getOrCreateSettings_frame db sid).2.2.2.2.2.2.1]
              exact hx
            rcases ho with ho | ho
            · exact absurd (hmem ho) hno
            · simp only [List.mem_singleton] at ho
              subst ho
              refine ⟨rfl, ?_, ?_⟩
              · show some (poSubtotal items *
                    effectiveTaxRate (getOrCreateSettings db sid).2) = _
                rw [effectiveTaxRate_getOrCreate]
                rfl
              · show poSubtotal items +
                    poSubtotal items * effectiveTaxRate (getOrCreateSettings db sid).2 = _
                rfl
          · intro _ hnone
            rw [hdbr, p8, q8]
            exact hsetdiff hnone

def poOrder1 : PurchaseOrderInput where
  orderNumber := some "PO1"
  supplierId := some "sup1"
  orderDate := some "2024-01-01"

def poItem1 : PurchaseItemInput where
  productId := some "p1"
  quantity := some 10
  unitPrice := some 3
  totalPrice := some 30

/-- C5 witness: a concrete order (station s1 with no settings row, one item
10 × 3) is created with subtotal 30, taxAmount 0, totalAmount 30, and a
zero-rate default settings row appears. -/
theorem c5_purchase_order_totals_witness :
    (∀ o, o ∈ (postPurchaseOrders {} { id := "u1", role := "admin", stationId := some "s1" }
        poOrder1 [poItem1]).db.purchaseOrders → o ∉ (({} : DB)).purchaseOrders →
      o.subtotal = poSubtotal [poItem1] ∧
      o.taxAmount = some (o.subtotal * stationTaxRate {} "s1") ∧
      o.totalAmount = o.subtotal + o.taxAmount.getD 0) ∧
    (("s1" == "") = false → getSettings {} "s1" = none →
      (postPurchaseOrders {} { id := "u1", role := "admin", stationId := some "s1" }
        poOrder1 [poItem1]).db.settings = (({} : DB)).settings ++
        [{ id := toString (({} : DB)).nextId, stationId := "s1", taxEnabled := some false,
           taxRate := some 0, currencyCode := "PKR" }]) :=
  c5_purchase_order_totals {} { id := "u1", role := "admin", stationId := some "s1" }
    poOrder1 [poItem1] _ "s1" rfl rfl (by decide)

def jLineBadD : JournalLineInput where
  accountId := some "a"
  debit := some 100

def jLineBadC : JournalLineInput where
  accountId := some "b"
  credit := some 50

def jBad : JournalEntryInput := { description := some "unbalanced", lines := [jLineBadD, jLineBadC] }

/-- C6, counterexample: POST /api/journal-entries accepts an entry whose
lines are unbalanced (total debits 100, total credits 50) — it answers 201
and performs no balance check whatsoever (and persists nothing: the handler
is a mock that echoes the body). -/
theorem c6_unbalanced_entry_accepted :
    (postJournalEntries {} jBad).status = 201 ∧
    (postJournalEntries {} jBad).db = {} ∧
    totalDebits jBad.lines = 100 ∧
    totalCredits jBad.lines = 50 := by
  refine ⟨rfl, rfl, ?_, ?_⟩ <;>
    simp [totalDebits, totalCredits, jBad, jLineBadD, jLineBadC]

/-- C6 (amended): the server endpoint POST /api/journal-entries performs no
debit/credit balance check at all — it answers 201 for every body and
persists nothing.  The only balance enforcement is client-side: the ledger
form's `onJournalSubmit` submits its data exactly when
`|sum(debit) − sum(credit)| ≤ 0.01`, no line has debit and credit both
positive, no line has debit and credit both equal to 0, and every line has a
non-empty account — and what it submits is the form data with those two sums
attached as the entry's totals. -/
theorem c6_journal_balance_client_only :
    (∀ (db : DB) (input : JournalEntryInput),
      (postJournalEntries db input).status = 201 ∧
      (postJournalEntries db input).db = db) ∧
    (∀ (data : JournalEntryInput),
      (onJournalSubmit data).isSome = true ↔
        (|totalDebits data.lines - totalCredits data.lines| ≤ 1/100 ∧
         (∀ l ∈ data.lines,
           ¬((l.debit.getD 0 > 0 ∧ l.credit.getD 0 > 0) ∨
             (l.debit.getD 0 = 0 ∧ l.credit.getD 0 = 0))) ∧
         (∀ l ∈ data.lines, l.accountId.getD "" ≠ ""))) ∧
    (∀ (data : JournalEntryInput) (res : JournalEntryInput × ℚ × ℚ),
      onJournalSubmit data = some res →
        res = (data, totalDebits data.lines, totalCredits data.lines)) := by
  refine ⟨fun db input => ⟨rfl, rfl⟩, ?_, ?_⟩
  · intro data
    unfold onJournalSubmit
    by_cases h1 : |totalDebits data.lines - totalCredits data.lines| > 1/100
    · rw [if_pos h1]
      constructor
      · intro h
        simp at h
      · rintro ⟨hb, -, -⟩
        exact absurd hb (not_le.mpr h1)
    · rw [if_neg h1]
      by_cases h2 : (data.lines.any (fun l =>
          (l.debit.getD 0 > 0 && l.credit.getD 0 > 0) ||
          (l.debit.getD 0 == 0 && l.credit.getD 0 == 0))) = true
      · rw [if_pos h2]
        constructor
        · intro h
          simp at h
        · rintro ⟨-, hl, -⟩
          exfalso
          rw [List.any_eq_true] at h2
          obtain ⟨x, hx, hpx⟩ := h2
          simp only [Bool.or_eq_true, Bool.and_eq_true, decide_eq_true_eq,
            beq_iff_eq] at hpx
          exact hl x hx hpx
      · rw [if_neg h2]
        by_cases h3 : (data.lines.any (fun l => l.accountId.getD "" == "")) = true
        · rw [if_pos h3]
          constructor
          · intro h
            simp at h
          · rintro ⟨-, -, ha⟩
            exfalso
            rw [List.any_eq_true] at h3
            obtain ⟨x, hx, hpx⟩ := h3
            exact ha x hx (by simpa using hpx)
        · rw [if_neg h3]
          constructor
          · intro _
            refine ⟨not_lt.mp h1, ?_, ?_⟩
            · intro l hl hcontra
              apply h2
              rw [List.any_eq_true]
              refine ⟨l, hl, ?_⟩
              simp only [Bool.or_eq_true, Bool.and_eq_true, decide_eq_true_eq,
                beq_iff_eq]
              exact hcontra
            · intro l hl heq
              apply h3
              rw [List.any_eq_true]
              exact ⟨l, hl, by simpa using heq⟩
          · intro _
            simp
  · intro data res hsub
    unfold onJournalSubmit at hsub
    by_cases h1 : |totalDebits data.lines - totalCredits data.lines| > 1/100
    · rw [if_pos h1] at hsub
      exact absurd hsub (by simp)
    · rw [if_neg h1] at hsub
      by_cases h2 : (data.lines.any (fun l =>
          (l.debit.getD 0 > 0 && l.credit.getD 0 > 0) ||
          (l.debit.getD 0 == 0 && l.credit.getD 0 == 0))) = true
      · rw [if_pos h2] at hsub
        exact absurd hsub (by simp)
      · rw [if_neg h2] at hsub
        by_cases h3 : (data.lines.any (fun l => l.accountId.getD "" == "")) = true
        · rw [if_pos h3] at hsub
          exact absurd hsub (by simp)
        · rw [if_neg h3] at hsub
          injection hsub with hsub
          exact hsub.symm

def jLineGoodD : JournalLineInput where
  accountId := some "a"
  debit := some 50

def jLineGoodC : JournalLineInput where
  accountId := some "b"
  credit := some 50

def jGood : JournalEntryInput := { description := some "balanced", lines := [jLineGoodD, jLineGoodC] }

/-- C6 witness: the amended theorem at a concrete balanced entry
(debit 50 / credit 50): the guard conditions hold, so the form submits, and
the submitted payload is the data with the two sums attached. -/
theorem c6_journal_balance_client_only_witness :
    (onJournalSubmit jGood).isSome = true ∧
    (jGood, (50 : ℚ), (50 : ℚ)) =
      (jGood, totalDebits jGood.lines, totalCredits jGood.lines) := by
  have hd : totalDebits jGood.lines = 50 := by
    simp [totalDebits, jGood, jLineGoodD, jLineGoodC]
  have hc : totalCredits jGood.lines = 50 := by
    simp [totalCredits, jGood, jLineGoodD, jLineGoodC]
  have hsub : onJournalSubmit jGood = some (jGood, 50, 50) := by
    unfold onJournalSubmit
    rw [hd, hc]
    norm_num [jGood, jLineGoodD, jLineGoodC]
    rintro (h | h) <;> simp at h
  refine ⟨?_, ?_⟩
  · exact (c6_journal_balance_client_only.2.1 jGood).mpr
      ⟨by rw [hd, hc]; norm_num, by decide, by decide⟩
  · exact c6_journal_balance_client_only.2.2 jGood (jGood, 50, 50) hsub

def custNeg : Customer := { id := "c9", name := "Negative", outstandingAmount := some (-5) }

/-- C10, counterexample: a customer whose outstandingAmount is -5 — neither
0 nor unset — is nonetheless deleted by DELETE /api/customers/:id (the
handler only rejects when the parsed amount is strictly greater than 0). -/
theorem c10_negative_outstanding_deleted :
    (deleteCustomerRoute { customers := [custNeg] } "c9").status = 200 ∧
    (deleteCustomerRoute { customers := [custNeg] } "c9").db.customers = [] := by
  refine ⟨?_, ?_⟩ <;> decide

/-- C10 (amended): DELETE /api/customers/:id and DELETE /api/suppliers/:id
answer 404 for a missing entity and 400 — leaving the store untouched —
whenever the entity's parsed outstandingAmount (0 when unset) is greater
than 0; deletion proceeds whenever that parsed amount is NOT greater than 0
(so for 0, unset, or negative balances), removing exactly the rows with the
given id.  Hence no customer or supplier with outstandingAmount > 0 is ever
deleted. -/
theorem c10_delete_outstanding_guard (db : DB) (id : String) :
    (getCustomer db id = none → deleteCustomerRoute db id = { status := 404, db := db }) ∧
    (∀ c, getCustomer db id = some c →
      (c.outstandingAmount.getD 0 > 0 →
        deleteCustomerRoute db id = { status := 400, db := db }) ∧
      (¬ c.outstandingAmount.getD 0 > 0 →
        (deleteCustomerRoute db id).status = 200 ∧
        (deleteCustomerRoute db id).db =
          { db with customers := db.customers.filter (fun x => !(x.id == id)) })) ∧
    (getSupplier db id = none → deleteSupplierRoute db id = { status := 404, db := db }) ∧
    (∀ s, getSupplier db id = some s →
      (s.outstandingAmount.getD 0 > 0 →
        deleteSupplierRoute db id = { status := 400, db := db }) ∧
      (¬ s.outstandingAmount.getD 0 > 0 →
        (deleteSupplierRoute db id).status = 200 ∧
        (deleteSupplierRoute db id).db =
          { db with suppliers := db.suppliers.filter (fun x => !(x.id == id)) })) := by
  refine ⟨?_, ?_, ?_, ?_⟩
  · intro hn
    unfold deleteCustomerRoute
    rw [hn]
  · intro c hc
    constructor
    · intro hpos
      unfold deleteCustomerRoute
      simp only [hc]
      rw [if_pos hpos]
    · intro hneg
      unfold deleteCustomerRoute
      simp only [hc]
      rw [if_neg hneg]
      exact ⟨rfl, rfl⟩
  · intro hn
    unfold deleteSupplierRoute
    rw [hn]
  · intro s hs
    constructor
    · intro hpos
      unfold deleteSupplierRoute
      simp only [hs]
      rw [if_pos hpos]
    · intro hneg
      unfold deleteSupplierRoute
      simp only [hs]
      rw [if_neg hneg]
      exact ⟨rfl, rfl⟩

def custPos : Customer := { id := "c8", name := "Debtor", outstandingAmount := some 5 }

/-- C10 witness: a concrete customer with outstanding 5 is protected — the
delete answers 400 and the store is unchanged. -/
theorem c10_delete_outstanding_guard_witness :
    deleteCustomerRoute { customers := [custPos] } "c8" =
      { status := 400, db := { customers := [custPos] } } :=
  (((c10_delete_outstanding_guard { customers := [custPos] } "c8").2.1
    custPos (by decide)).1) (by decide)

end FuelFlow
